import Mathlib

/-!
# adns-ruby: the Ruby binding of GNU adns (`ext/adns/mod_adns.c`)

A shallow embedding of the binding's C functions.  Ruby values are a small
inductive type, the adns structures are records, the library and libc entry
points are oracles whose replies are arguments, and every function returns the
Ruby exception it raises (if any) together with the library calls it made.
-/

namespace ADNS

/-! ## Ruby values -/

/-- A Ruby `VALUE` as far as the binding builds or inspects one.  `fixnum` is an
Integer object (a Fixnum when it fits 63 bits, else a Bignum).  Hashes are
association lists in insertion order; every key the binding uses is a symbol
made by `CSTR2SYM`, kept here by its name.  `data` is a wrapped C structure
(`Data_Wrap_Struct`), named by an object id. -/
inductive RValue where
  | nil
  | fixnum (i : Int)
  | float (x : Rat)
  | str (s : String)
  | ary (xs : List RValue)
  | hash (kvs : List (String × RValue))
  | data (id : Nat)

namespace RValue

mutual
/-- Decidable equality of Ruby values (structural). -/
def decEqV : (a b : RValue) → Decidable (a = b)
  | .nil, .nil => isTrue rfl
  | .fixnum i, .fixnum j =>
    if h : i = j then isTrue (by rw [h]) else isFalse (by intro e; cases e; exact h rfl)
  | .float i, .float j =>
    if h : i = j then isTrue (by rw [h]) else isFalse (by intro e; cases e; exact h rfl)
  | .str i, .str j =>
    if h : i = j then isTrue (by rw [h]) else isFalse (by intro e; cases e; exact h rfl)
  | .data i, .data j =>
    if h : i = j then isTrue (by rw [h]) else isFalse (by intro e; cases e; exact h rfl)
  | .ary xs, .ary ys =>
    match decEqL xs ys with
    | isTrue h => isTrue (by rw [h])
    | isFalse h => isFalse (by intro e; cases e; exact h rfl)
  | .hash xs, .hash ys =>
    match decEqH xs ys with
    | isTrue h => isTrue (by rw [h])
    | isFalse h => isFalse (by intro e; cases e; exact h rfl)
  | .nil, .fixnum _ | .nil, .float _ | .nil, .str _ | .nil, .ary _ | .nil, .hash _
  | .nil, .data _ => isFalse (by intro e; cases e)
  | .fixnum _, .nil | .fixnum _, .float _ | .fixnum _, .str _ | .fixnum _, .ary _
  | .fixnum _, .hash _ | .fixnum _, .data _ => isFalse (by intro e; cases e)
  | .float _, .nil | .float _, .fixnum _ | .float _, .str _ | .float _, .ary _
  | .float _, .hash _ | .float _, .data _ => isFalse (by intro e; cases e)
  | .str _, .nil | .str _, .fixnum _ | .str _, .float _ | .str _, .ary _ | .str _, .hash _
  | .str _, .data _ => isFalse (by intro e; cases e)
  | .ary _, .nil | .ary _, .fixnum _ | .ary _, .float _ | .ary _, .str _ | .ary _, .hash _
  | .ary _, .data _ => isFalse (by intro e; cases e)
  | .hash _, .nil | .hash _, .fixnum _ | .hash _, .float _ | .hash _, .str _ | .hash _, .ary _
  | .hash _, .data _ => isFalse (by intro e; cases e)
  | .data _, .nil | .data _, .fixnum _ | .data _, .float _ | .data _, .str _ | .data _, .ary _
  | .data _, .hash _ => isFalse (by intro e; cases e)
/-- Decidable equality of lists of Ruby values. -/
def decEqL : (a b : List RValue) → Decidable (a = b)
  | [], [] => isTrue rfl
  | [], _ :: _ => isFalse (by intro e; cases e)
  | _ :: _, [] => isFalse (by intro e; cases e)
  | x :: xs, y :: ys =>
    match decEqV x y, decEqL xs ys with
    | isTrue h, isTrue h2 => isTrue (by rw [h, h2])
    | isFalse h, _ => isFalse (by intro e; cases e; exact h rfl)
    | _, isFalse h => isFalse (by intro e; cases e; exact h rfl)
/-- Decidable equality of hash bodies. -/
def decEqH : (a b : List (String × RValue)) → Decidable (a = b)
  | [], [] => isTrue rfl
  | [], _ :: _ => isFalse (by intro e; cases e)
  | _ :: _, [] => isFalse (by intro e; cases e)
  | (k, x) :: xs, (l, y) :: ys =>
    if hk : k = l then
      match decEqV x y, decEqH xs ys with
      | isTrue h, isTrue h2 => isTrue (by rw [hk, h, h2])
      | isFalse h, _ => isFalse (by intro e; cases e; exact h rfl)
      | _, isFalse h => isFalse (by intro e; cases e; exact h rfl)
    else isFalse (by intro e; cases e; exact hk rfl)
end

instance : DecidableEq RValue := decEqV

instance : Inhabited RValue := ⟨.nil⟩

end RValue

/-- Ruby's `Qnil`. -/
def Qnil : RValue := .nil

/-- The exception classes the binding raises: Ruby's own `ArgumentError`,
`TypeError`, `RangeError`, `IOError`, and the classes `Init_adns` defines
under `ADNS`. -/
inductive RbExc where
  | ArgError
  | TypeError
  | RangeError
  | IOError
  | Error
  | LocalError
  | RemoteError
  | QueryError
  | PermanentError
  | NotReadyError
  deriving DecidableEq, Repr

/-- Ruby's `rb_hash_new()`. -/
def rb_hash_new : RValue := .hash []

/-- Body of `rb_hash_aset`: replace the value of an existing key in place,
else append the pair. -/
def hash_aset_body (k : String) (v : RValue) : List (String × RValue) → List (String × RValue)
  | [] => [(k, v)]
  | (k0, v0) :: rest => if k0 = k then (k0, v) :: rest else (k0, v0) :: hash_aset_body k v rest

/-- Ruby's `rb_hash_aset(hash, key, val)` with a symbol key.  The binding only ever
applies it to hashes. -/
def rb_hash_aset (h : RValue) (k : String) (v : RValue) : RValue :=
  match h with
  | .hash kvs => .hash (hash_aset_body k v kvs)
  | other => other

/-- Ruby's `rb_hash_aref(hash, key)`: the value under a symbol key, `nil` if absent. -/
def rb_hash_aref (h : RValue) (k : String) : RValue :=
  match h with
  | .hash kvs => ((kvs.find? (fun p => p.1 = k)).map (fun p => p.2)).getD .nil
  | _ => .nil

/-- The keys of a hash, in insertion order. -/
def rb_hash_keys (h : RValue) : List String :=
  match h with
  | .hash kvs => kvs.map (fun p => p.1)
  | _ => []

/-- Body of `rb_ary_store(ary, idx, val)` for `idx >= 0`: overwrite slot `idx`,
first growing the array with `nil` when it is shorter. -/
def ary_store_body (xs : List RValue) (idx : Nat) (v : RValue) : List RValue :=
  if idx < xs.length then xs.set idx v
  else xs ++ List.replicate (idx - xs.length) RValue.nil ++ [v]

/-- Ruby's `rb_ary_store(ary, idx, val)`. -/
def rb_ary_store (a : RValue) (idx : Nat) (v : RValue) : RValue :=
  match a with
  | .ary xs => .ary (ary_store_body xs idx v)
  | other => other

/-- Ruby's `rb_ary_new()`, and `rb_ary_new2(capa)` for `capa >= 0`: an empty array
(the capacity is not observable). -/
def rb_ary_new : RValue := .ary []

/-- Ruby's `rb_ary_entry(ary, idx)`: the element in slot `idx`, `nil` outside the
array. -/
def rb_ary_entry (a : RValue) (idx : Nat) : RValue :=
  match a with
  | .ary xs => xs.getD idx .nil
  | _ => .nil

/-- Ruby's `INT2FIX(i)` on an LP64 platform: the operand is shifted into a 63-bit
signed fixnum, so the value is kept modulo `2^63`. -/
def INT2FIX (i : Int) : RValue := .fixnum ((i + 2 ^ 62) % 2 ^ 63 - 2 ^ 62)

/-- The macro `CSTR2STR(cstr)`: a Ruby string, empty for a NULL pointer. -/
def CSTR2STR (cstr : Option String) : RValue :=
  match cstr with
  | some s => .str s
  | none => .str ""

/-- The macro `CSTR2SYM(cstr)`: the symbol, kept by its name. -/
def CSTR2SYM (cstr : String) : String := cstr

/-! ## The declarations of `adns.h` the binding uses

`adns.h` belongs to the GNU adns library, not to this repository.  The record
types list the members the binding reads; the constants are the values of the
adns 1.x header (`adns_rrt_typemask`, `adns__qtf_deref`, `adns__qtf_mail822`
and the record type numbers). -/

/-- Modelled from the spec: the constant `adns_rrt_typemask` of `adns.h`, a header that is
not among the sources. -/
def adns_rrt_typemask : Nat := 0xffff

/-- Modelled from the spec: the constant `adns__qtf_deref` of `adns.h`, a header that is
not among the sources. -/
def adns__qtf_deref : Nat := 0x10000

/-- Modelled from the spec: the constant `adns__qtf_mail822` of `adns.h`, a header that is
not among the sources. -/
def adns__qtf_mail822 : Nat := 0x20000

/-- Modelled from the spec: the constant `adns_r_unknown` of `adns.h`, a header that is
not among the sources. -/
def adns_r_unknown : Nat := 0x40000

/-- Modelled from the spec: the constant `adns_r_none` of `adns.h`, a header that is
not among the sources. -/
def adns_r_none : Nat := 0

/-- Modelled from the spec: the constant `adns_r_a` of `adns.h`, a header that is
not among the sources. -/
def adns_r_a : Nat := 1

/-- Modelled from the spec: the constant `adns_r_ns_raw` of `adns.h`, a header that is
not among the sources. -/
def adns_r_ns_raw : Nat := 2

/-- Modelled from the spec: the constant `adns_r_ns` of `adns.h`, a header that is
not among the sources. -/
def adns_r_ns : Nat := adns_r_ns_raw ||| adns__qtf_deref

/-- Modelled from the spec: the constant `adns_r_cname` of `adns.h`, a header that is
not among the sources. -/
def adns_r_cname : Nat := 5

/-- Modelled from the spec: the constant `adns_r_soa_raw` of `adns.h`, a header that is
not among the sources. -/
def adns_r_soa_raw : Nat := 6

/-- Modelled from the spec: the constant `adns_r_soa` of `adns.h`, a header that is
not among the sources. -/
def adns_r_soa : Nat := adns_r_soa_raw ||| adns__qtf_mail822

/-- Modelled from the spec: the constant `adns_r_ptr_raw` of `adns.h`, a header that is
not among the sources. -/
def adns_r_ptr_raw : Nat := 12

/-- Modelled from the spec: the constant `adns_r_ptr` of `adns.h`, a header that is
not among the sources. -/
def adns_r_ptr : Nat := adns_r_ptr_raw ||| adns__qtf_deref

/-- Modelled from the spec: the constant `adns_r_hinfo` of `adns.h`, a header that is
not among the sources. -/
def adns_r_hinfo : Nat := 13

/-- Modelled from the spec: the constant `adns_r_mx_raw` of `adns.h`, a header that is
not among the sources. -/
def adns_r_mx_raw : Nat := 15

/-- Modelled from the spec: the constant `adns_r_mx` of `adns.h`, a header that is
not among the sources. -/
def adns_r_mx : Nat := adns_r_mx_raw ||| adns__qtf_deref

/-- Modelled from the spec: the constant `adns_r_txt` of `adns.h`, a header that is
not among the sources. -/
def adns_r_txt : Nat := 16

/-- Modelled from the spec: the constant `adns_r_rp_raw` of `adns.h`, a header that is
not among the sources. -/
def adns_r_rp_raw : Nat := 17

/-- Modelled from the spec: the constant `adns_r_rp` of `adns.h`, a header that is
not among the sources. -/
def adns_r_rp : Nat := adns_r_rp_raw ||| adns__qtf_mail822

/-- Modelled from the spec: the constant `adns_r_srv_raw` of `adns.h`, a header that is
not among the sources. -/
def adns_r_srv_raw : Nat := 33

/-- Modelled from the spec: the constant `adns_r_srv` of `adns.h`, a header that is
not among the sources. -/
def adns_r_srv : Nat := adns_r_srv_raw ||| adns__qtf_deref

/-- Modelled from the spec: the constant `adns_r_addr` of `adns.h`, a header that is
not among the sources. -/
def adns_r_addr : Nat := adns_r_a ||| adns__qtf_deref

/-- Modelled from the spec: the constant `adns_s_ok` of `adns.h`, a header that is
not among the sources. -/
def adns_s_ok : Int := 0

/-- Modelled from the spec: the constant `adns_qf_owner` of `adns.h`, a header that is
not among the sources. -/
def adns_qf_owner : Int := 4

/-- Modelled from the spec: the constant `adns_qf_none` of `adns.h`, a header that is
not among the sources. -/
def adns_qf_none : Int := 0

/-- The `errno` value `EWOULDBLOCK` of `errno.h` (Linux: the value of `EAGAIN`). -/
def EWOULDBLOCK : Int := 11

/-- A `struct in_addr` of `netinet/in.h`: the four octets of the address in network order. -/
structure in_addr where
  o1 : Nat
  o2 : Nat
  o3 : Nat
  o4 : Nat
  deriving DecidableEq, Repr, Inhabited

/-- Modelled from the spec: an `adns_rr_addr` of `adns.h`; the binding reads
`addr.inet.sin_addr` only. -/
structure adns_rr_addr where
  sin_addr : in_addr
  deriving DecidableEq, Repr, Inhabited

/-- Modelled from the spec: an `adns_rr_hostaddr` of `adns.h`.  `addrs` is the
array behind the pointer: `addrs i` is the element `addrs[i]`. -/
structure adns_rr_hostaddr where
  host : Option String
  astatus : Int
  naddrs : Int
  addrs : Nat → adns_rr_addr
  deriving Inhabited

/-- Modelled from the spec: an `adns_rr_intstr` of `adns.h`. -/
structure adns_rr_intstr where
  i : Int
  str : Option String
  deriving DecidableEq, Repr, Inhabited

/-- Modelled from the spec: an `adns_rr_intstrpair` of `adns.h`: `array[0]`, `array[1]`. -/
structure adns_rr_intstrpair where
  array0 : adns_rr_intstr
  array1 : adns_rr_intstr
  deriving DecidableEq, Repr, Inhabited

/-- Modelled from the spec: an `adns_rr_strpair` of `adns.h`: `array[0]`, `array[1]`. -/
structure adns_rr_strpair where
  array0 : Option String
  array1 : Option String
  deriving DecidableEq, Repr, Inhabited

/-- Modelled from the spec: an `adns_rr_inthostaddr` of `adns.h`. -/
structure adns_rr_inthostaddr where
  i : Int
  ha : adns_rr_hostaddr
  deriving Inhabited

/-- Modelled from the spec: an `adns_rr_soa` of `adns.h`. -/
structure adns_rr_soa where
  mname : Option String
  rname : Option String
  serial : Nat
  refresh : Nat
  retry : Nat
  expire : Nat
  minimum : Nat
  deriving DecidableEq, Repr, Inhabited

/-- Modelled from the spec: an `adns_rr_srvraw` of `adns.h`. -/
structure adns_rr_srvraw where
  priority : Int
  weight : Int
  port : Int
  host : Option String
  deriving DecidableEq, Repr, Inhabited

/-- Modelled from the spec: an `adns_rr_srvha` of `adns.h`. -/
structure adns_rr_srvha where
  priority : Int
  weight : Int
  port : Int
  ha : adns_rr_hostaddr
  deriving Inhabited

/-- Modelled from the spec: the union `rrs` of an `adns_answer` of `adns.h`:
one pointer to the record array, read through the member the code names.
`rrs.m idx` is the element the C expression `rrs.m[idx]` (or `*(rrs.m+idx)`)
reads.  adns fills the array in the layout of the answer's type; what the other
members read is whatever the same memory yields.  `manyistr idx` is itself an
array, of which `manyistr idx 0` is the first element. -/
structure adns_rrs where
  str : Nat → Option String
  manyistr : Nat → Nat → adns_rr_intstr
  addr : Nat → adns_rr_addr
  inaddr : Nat → in_addr
  hostaddr : Nat → adns_rr_hostaddr
  intstrpair : Nat → adns_rr_intstrpair
  strpair : Nat → adns_rr_strpair
  inthostaddr : Nat → adns_rr_inthostaddr
  intstr : Nat → adns_rr_intstr
  soa : Nat → adns_rr_soa
  srvraw : Nat → adns_rr_srvraw
  srvha : Nat → adns_rr_srvha
  deriving Inhabited

/-- Modelled from the spec: an `adns_answer` of `adns.h`.  `type` is an
`adns_rrtype` and `nrrs` a record count; adns yields neither negative. -/
structure adns_answer where
  status : Int
  cname : Option String
  owner : Option String
  type : Nat
  expires : Int
  nrrs : Nat
  rrs : adns_rrs
  deriving Inhabited

/-- The libc `inet_ntoa`: the dotted-quad text of an address, in a static
buffer (never NULL). -/
def inet_ntoa (a : in_addr) : Option String :=
  some (Nat.repr (a.o1 % 256) ++ "." ++ Nat.repr (a.o2 % 256) ++ "." ++
    Nat.repr (a.o3 % 256) ++ "." ++ Nat.repr (a.o4 % 256))

/-! ## Decoding an answer -/

/-- The function `parse_adns_rr_addr`. -/
def parse_adns_rr_addr (addr_r : adns_rr_addr) : RValue :=
  let addr_str := inet_ntoa addr_r.sin_addr
  match addr_str with
  | none => CSTR2STR (some "")
  | some s => CSTR2STR (some s)

/-- The function `parse_adns_rr_hostaddr`. -/
def parse_adns_rr_hostaddr (hostaddr_r : adns_rr_hostaddr) : RValue :=
  let rb_hostaddr := rb_hash_new
  let host_k := CSTR2SYM "host"
  let host_v := CSTR2STR hostaddr_r.host
  let status_k := CSTR2SYM "status"
  let status_v := INT2FIX hostaddr_r.astatus
  let addrs_k := CSTR2SYM "addr"
  let addrs_v := rb_ary_new
  let addrs_v :=
    if hostaddr_r.naddrs > 0 then
      (List.range hostaddr_r.naddrs.toNat).foldl
        (fun acc idx => rb_ary_store acc idx (parse_adns_rr_addr (hostaddr_r.addrs idx))) addrs_v
    else addrs_v
  let rb_hostaddr := rb_hash_aset rb_hostaddr host_k host_v
  let rb_hostaddr := rb_hash_aset rb_hostaddr status_k status_v
  let rb_hostaddr := rb_hash_aset rb_hostaddr addrs_k addrs_v
  rb_hostaddr

/-- The function `parse_adns_rr_soa`. -/
def parse_adns_rr_soa (soa_r : adns_rr_soa) : RValue :=
  let rb_soa := rb_hash_new
  let rb_soa := rb_hash_aset rb_soa (CSTR2SYM "mname") (CSTR2STR soa_r.mname)
  let rb_soa := rb_hash_aset rb_soa (CSTR2SYM "rname") (CSTR2STR soa_r.rname)
  let rb_soa := rb_hash_aset rb_soa (CSTR2SYM "serial") (INT2FIX soa_r.serial)
  let rb_soa := rb_hash_aset rb_soa (CSTR2SYM "refresh") (INT2FIX soa_r.refresh)
  let rb_soa := rb_hash_aset rb_soa (CSTR2SYM "retry") (INT2FIX soa_r.retry)
  let rb_soa := rb_hash_aset rb_soa (CSTR2SYM "minimum") (INT2FIX soa_r.minimum)
  rb_soa

/-- The function `parse_adns_rr_srv(srvraw_r, srvha_r)`.  Both callers pass exactly one
non-NULL pointer, which is the argument here: `Sum.inl` for `(srvraw_r, NULL)`
and `Sum.inr` for `(NULL, srvha_r)`. -/
def parse_adns_rr_srv (r : adns_rr_srvraw ⊕ adns_rr_srvha) : RValue :=
  let rb_srv := rb_hash_new
  let priority_k := CSTR2SYM "priority"
  let weight_k := CSTR2SYM "weight"
  let port_k := CSTR2SYM "port"
  let host_k := CSTR2SYM "host"
  let addrs_k := CSTR2SYM "addrs"
  match r with
  | .inl srvraw_r =>
    let priority_v := INT2FIX srvraw_r.priority
    let weight_v := INT2FIX srvraw_r.weight
    let port_v := INT2FIX srvraw_r.port
    let host_v := CSTR2STR srvraw_r.host
    let rb_srv := rb_hash_aset rb_srv host_k host_v
    let rb_srv := rb_hash_aset rb_srv priority_k priority_v
    let rb_srv := rb_hash_aset rb_srv weight_k weight_v
    let rb_srv := rb_hash_aset rb_srv port_k port_v
    rb_srv
  | .inr srvha_r =>
    let priority_v := INT2FIX srvha_r.priority
    let weight_v := INT2FIX srvha_r.weight
    let port_v := INT2FIX srvha_r.port
    let addrs_v := parse_adns_rr_hostaddr srvha_r.ha
    let rb_srv := rb_hash_aset rb_srv addrs_k addrs_v
    let rb_srv := rb_hash_aset rb_srv priority_k priority_v
    let rb_srv := rb_hash_aset rb_srv weight_k weight_v
    let rb_srv := rb_hash_aset rb_srv port_k port_v
    rb_srv

/-- The body of the loop of `parse_adns_answer`: the value `v` stored in slot
`idx`.  `t` and `t_dref` are the function's locals; `ecode` is its local of
that name, which the function declares and never assigns, so the test at the
non-dereferenced A branch reads an indeterminate value. -/
def parse_adns_answer_rr (ecode : Int) (answer_r : adns_answer) (t t_dref : Nat)
    (idx : Nat) : RValue :=
  if t = adns_r_a then
    if t_dref ≠ 0 then parse_adns_rr_addr (answer_r.rrs.addr idx)
    else
      let inaddr_r := answer_r.rrs.inaddr idx
      let addr_buf := inet_ntoa inaddr_r
      if ecode ≠ 0 then CSTR2STR (some "") else CSTR2STR addr_buf
  else if t = adns_r_ns_raw then
    if t_dref ≠ 0 then parse_adns_rr_hostaddr (answer_r.rrs.hostaddr idx)
    else CSTR2STR (answer_r.rrs.str idx)
  else if t = adns_r_cname ∨ t = adns_r_ptr ∨ t = adns_r_ptr_raw then
    CSTR2STR (answer_r.rrs.str idx)
  else if t = adns_r_soa_raw then parse_adns_rr_soa (answer_r.rrs.soa idx)
  else if t = adns_r_hinfo then
    let intstrpair_r := answer_r.rrs.intstrpair idx
    let str1 := intstrpair_r.array0.str
    let str2 := intstrpair_r.array1.str
    let v := rb_ary_new
    let v1 := rb_ary_new
    let v2 := rb_ary_new
    let v1 := rb_ary_store v1 0 (INT2FIX intstrpair_r.array0.i)
    let v1 := rb_ary_store v1 1 (if str1.isSome then CSTR2STR str1 else CSTR2STR (some ""))
    let v2 := rb_ary_store v2 0 (INT2FIX intstrpair_r.array1.i)
    let v2 := rb_ary_store v2 1 (if str2.isSome then CSTR2STR str2 else CSTR2STR (some ""))
    let v := rb_ary_store v 0 v1
    let v := rb_ary_store v 1 v2
    v
  else if t = adns_r_mx_raw then
    let v := rb_hash_new
    let preference_k := CSTR2SYM "preference"
    if t_dref ≠ 0 then
      let inthostaddr_r := answer_r.rrs.inthostaddr idx
      let preference_v := INT2FIX inthostaddr_r.i
      let v := parse_adns_rr_hostaddr inthostaddr_r.ha
      rb_hash_aset v preference_k preference_v
    else
      let intstr_r := answer_r.rrs.intstr idx
      let preference_v := INT2FIX intstr_r.i
      let host_k := CSTR2SYM "host"
      let host_v := CSTR2STR intstr_r.str
      let v := rb_hash_aset v host_k host_v
      rb_hash_aset v preference_k preference_v
  else if t = adns_r_txt then
    let intstr_r := answer_r.rrs.manyistr idx 0
    CSTR2STR intstr_r.str
  else if t = adns_r_rp then
    let strpair_r := answer_r.rrs.strpair idx
    let v := rb_ary_new
    let v := rb_ary_store v 0 (CSTR2STR strpair_r.array0)
    let v := rb_ary_store v 1 (CSTR2STR strpair_r.array1)
    v
  else if t = adns_r_srv then
    if t_dref ≠ 0 then
      let srvraw_r := answer_r.rrs.srvraw idx
      parse_adns_rr_srv (.inl srvraw_r)
    else
      let srvha_r := answer_r.rrs.srvha idx
      parse_adns_rr_srv (.inr srvha_r)
  else rb_hash_new

/-- The function `parse_adns_answer`.  The `for` loop over `idx = 0 .. nrrs-1` is a fold
over `List.range nrrs`; each step is `rb_ary_store(rb_answer, idx, v)`. -/
def parse_adns_answer (ecode : Int) (answer_r : adns_answer) : RValue :=
  let rb_answer := rb_ary_new
  let t := answer_r.type &&& adns_rrt_typemask
  let t_dref := answer_r.type &&& adns__qtf_deref
  if answer_r.nrrs = 0 then rb_answer
  else
    (List.range answer_r.nrrs).foldl
      (fun rb_answer idx =>
        rb_ary_store rb_answer idx (parse_adns_answer_rr ecode answer_r t t_dref idx))
      rb_answer

/-! ## Ruby argument checking -/

instance instDecidableEqExcept {ε α : Type} [DecidableEq ε] [DecidableEq α] :
    DecidableEq (Except ε α)
  | .ok a, .ok b =>
    if h : a = b then isTrue (by rw [h]) else isFalse (by intro e; cases e; exact h rfl)
  | .error a, .error b =>
    if h : a = b then isTrue (by rw [h]) else isFalse (by intro e; cases e; exact h rfl)
  | .ok _, .error _ => isFalse (by intro e; cases e)
  | .error _, .ok _ => isFalse (by intro e; cases e)

/-- The type tags `CHECK_TYPE` is used with. -/
inductive RType where
  | T_STRING
  | T_FIXNUM
  | T_FLOAT
  deriving DecidableEq, Repr

/-- The range of a Fixnum on an LP64 platform: 63 bits, signed.  An Integer
outside it is a Bignum. -/
def fits_fixnum (i : Int) : Prop := -(2 ^ 62) ≤ i ∧ i < 2 ^ 62

instance (i : Int) : Decidable (fits_fixnum i) := by
  unfold fits_fixnum; exact inferInstance

/-- The macro `CHECK_TYPE(v, t)`, Ruby's `Check_Type`: raises `TypeError` unless
the value has the tag.  An Integer has the tag `T_FIXNUM` when it is in the
Fixnum range. -/
def CHECK_TYPE (v : RValue) (t : RType) : Except RbExc Unit :=
  match t, v with
  | .T_STRING, .str _ => .ok ()
  | .T_FIXNUM, .fixnum i => if fits_fixnum i then .ok () else .error .TypeError
  | .T_FLOAT, .float _ => .ok ()
  | _, _ => .error .TypeError

/-- The range of a C `int`. -/
def fits_int (i : Int) : Prop := -(2 ^ 31) ≤ i ∧ i < 2 ^ 31

instance (i : Int) : Decidable (fits_int i) := by
  unfold fits_int; exact inferInstance

/-- Ruby's `FIX2INT(v)` on an LP64 platform (`rb_fix2int`): the integer of a fixnum,
`RangeError` when it does not fit a C `int`.  It is only applied after
`CHECK_TYPE(v, T_FIXNUM)`. -/
def FIX2INT (v : RValue) : Except RbExc Int :=
  match v with
  | .fixnum i => if fits_int i then .ok i else .error .RangeError
  | _ => .error .TypeError

/-- The bytes of a Ruby string read as a C string: they end at the first NUL
character. -/
def cstr (s : String) : String :=
  String.mk (s.data.takeWhile (fun c => c ≠ Char.ofNat 0))

/-- Ruby's `STR2CSTR(v)`: the C string of a Ruby string.  It is only applied after
`CHECK_TYPE(v, T_STRING)`. -/
def STR2CSTR (v : RValue) : Except RbExc String :=
  match v with
  | .str s => .ok (cstr s)
  | _ => .error .TypeError

/-! ## The library seen from the binding -/

/-- An `adns_query` handle. -/
abbrev adns_query := Nat

/-- The `rb_adns_state_t` behind an `ADNS::State`: the library state `ads` and
the diagnostics file, both by identity (`ads` 0 and `diagfile` `none` are
NULL). -/
structure rb_adns_state_t where
  ads : Nat
  diagfile : Option Nat
  deriving DecidableEq, Repr, Inhabited

/-- The `rb_adns_query_t` behind an `ADNS::Query`: the library handle `adq`
(`none` is NULL) and the cached answer.  The back pointer `rb_ads_r` only
selects the library state handed to adns and is left out. -/
structure rb_adns_query_t where
  adq : Option adns_query
  answer : RValue
  deriving DecidableEq, Inhabited

/-- The memory behind an `ADNS::Query` object.  The object holds the pointer to
its `rb_adns_query_t` for its whole life; the memory is a live record or, after
`free(rb_adq_r)`, memory that holds no record any more. -/
inductive QueryMem where
  | live (rb_adq_r : rb_adns_query_t)
  | freed
  deriving DecidableEq, Inhabited

/-- What a binding function does that is visible outside it: the adns entry
points it calls, with their arguments, each run of `parse_adns_answer`, for
`completed_queries` the call of the helper `adns_select_timeout` and its
`select`, and the libc calls `free(rb_adq_r)` (on a query record) and
`free(answer_r)` (on an answer). -/
inductive Event where
  | adns_check (adq : adns_query)
  | adns_wait (adq : adns_query)
  | adns_cancel (adq : adns_query)
  | adns_submit (ads : Nat) (owner : String) (type : Int) (qflags : Int)
  | adns_submit_reverse (ads : Nat) (addr : in_addr) (type : Int) (qflags : Int)
  | adns_submit_reverse_any (ads : Nat) (addr : in_addr) (zone : String) (type : Int)
      (qflags : Int)
  | adns_synchronous (ads : Nat) (owner : String) (type : Int) (qflags : Int)
  | parse_adns_answer
  | adns_init (iflags : Int) (diagfile : Option Nat)
  | adns_init_strcfg (iflags : Int) (diagfile : Option Nat) (cfgtxt : Option String)
  | adns_select_timeout (ads : Nat) (t : Rat)
  | adns_beforeselect (ads : Nat)
  | select (tv_sec : Int)
  | adns_afterselect (ads : Nat)
  | free_rb_adq_r
  | free_answer_r
  deriving DecidableEq, Repr

/-- The replies of the world outside the binding during one call of a binding
function: `ecode` is the return value of the adns entry point the function
calls, `answer_r` the answer adns hands back when that value is 0, `adq` the
handle a submit call stores, `inet_aton` the libc address parser (return value
and the address it writes), and `parse_ecode` the indeterminate value of the
unassigned local `ecode` of `parse_adns_answer`. -/
structure World where
  ecode : Int
  answer_r : adns_answer
  adq : adns_query
  inet_aton : String → Int × in_addr
  parse_ecode : Int

/-- Result of a binding function on a State: the value returned or the
exception raised, and the events of the call in order. -/
structure Ret (α : Type) where
  result : Except RbExc α
  events : List Event

/-- Result of a method of `ADNS::Query`: as `Ret`, with the query record as
the call last stored it.  When the events hold `free_rb_adq_r` the call has
given the memory of the record back, see `QueryRet.mem`. -/
structure QueryRet where
  result : Except RbExc RValue
  query : rb_adns_query_t
  events : List Event
  deriving DecidableEq

/-- Whether a method call freed the query record: it called `free(rb_adq_r)`. -/
def QueryRet.freed (r : QueryRet) : Bool := r.events.contains Event.free_rb_adq_r

/-- The memory behind the Query object after a method call: freed when the call
freed the record, else the record as the call stored it. -/
def QueryRet.mem (r : QueryRet) : QueryMem :=
  if r.freed then QueryMem.freed else QueryMem.live r.query

/-- The five `rb_hash_aset` calls that fill an answer hash in `cQuery_check`,
`cQuery_wait` and `cState_completed_queries`, starting from `rb_hash_new()`. -/
def answer_hash (parse_ecode : Int) (answer_r : adns_answer) : RValue :=
  let answer := rb_hash_new
  let answer := rb_hash_aset answer (CSTR2SYM "type") (INT2FIX answer_r.type)
  let answer := rb_hash_aset answer (CSTR2SYM "owner") (CSTR2STR answer_r.owner)
  let answer := rb_hash_aset answer (CSTR2SYM "status") (INT2FIX answer_r.status)
  let answer := rb_hash_aset answer (CSTR2SYM "expires") (INT2FIX answer_r.expires)
  let answer := rb_hash_aset answer (CSTR2SYM "answer") (parse_adns_answer parse_ecode answer_r)
  answer

/-! ## `ADNS::Query` -/

/-- The function `cQuery_free`: the handle and the cached answer are cleared,
then the record is freed with `free(rb_adq_r)`.  The result is the record as
last stored and the event of the `free`. -/
def cQuery_free (rb_adq_r : rb_adns_query_t) : rb_adns_query_t × List Event :=
  let rb_adq_r := { rb_adq_r with adq := none }
  let rb_adq_r := { rb_adq_r with answer := Qnil }
  (rb_adq_r, [.free_rb_adq_r])

/-- The method `ADNS::Query#check`, `cQuery_check`. -/
def cQuery_check (w : World) (rb_adq_r : rb_adns_query_t) : QueryRet :=
  if rb_adq_r.answer ≠ Qnil then ⟨.ok rb_adq_r.answer, rb_adq_r, []⟩
  else
    match rb_adq_r.adq with
    | none => ⟨.error .QueryError, rb_adq_r, []⟩
    | some adq =>
      let ecode := w.ecode
      if ecode ≠ 0 then
        if ecode = EWOULDBLOCK then ⟨.error .NotReadyError, rb_adq_r, [.adns_check adq]⟩
        else
          let rb_adq_r := { rb_adq_r with adq := none }
          ⟨.error .Error, rb_adq_r, [.adns_check adq]⟩
      else
        let rb_adq_r := { rb_adq_r with answer := answer_hash w.parse_ecode w.answer_r }
        let rb_adq_r := { rb_adq_r with adq := none }
        ⟨.ok rb_adq_r.answer, rb_adq_r, [.adns_check adq, .parse_adns_answer]⟩

/-- The method `ADNS::Query#wait`, `cQuery_wait`. -/
def cQuery_wait (w : World) (rb_adq_r : rb_adns_query_t) : QueryRet :=
  if rb_adq_r.answer ≠ Qnil then ⟨.ok rb_adq_r.answer, rb_adq_r, []⟩
  else
    match rb_adq_r.adq with
    | none => ⟨.error .QueryError, rb_adq_r, []⟩
    | some adq =>
      let ecode := w.ecode
      if ecode ≠ 0 then
        let rb_adq_r := { rb_adq_r with adq := none }
        let rb_adq_r := { rb_adq_r with answer := Qnil }
        ⟨.error .Error, rb_adq_r, [.adns_wait adq]⟩
      else
        let rb_adq_r := { rb_adq_r with answer := answer_hash w.parse_ecode w.answer_r }
        let rb_adq_r := { rb_adq_r with adq := none }
        ⟨.ok rb_adq_r.answer, rb_adq_r, [.adns_wait adq, .parse_adns_answer]⟩

/-- The method `ADNS::Query#cancel`, `cQuery_cancel`.  With a handle set it
calls `adns_cancel` and then `cQuery_free` on the record of the object itself:
the record is freed while the Query object keeps its pointer to it. -/
def cQuery_cancel (rb_adq_r : rb_adns_query_t) : QueryRet :=
  match rb_adq_r.adq with
  | none => ⟨.error .QueryError, rb_adq_r, []⟩
  | some adq =>
    ⟨.ok Qnil, (cQuery_free rb_adq_r).1, .adns_cancel adq :: (cQuery_free rb_adq_r).2⟩

/-! ## `ADNS::State` -/

/-- The method `ADNS::State#submit`, `cState_submit`. -/
def cState_submit (w : World) (rb_ads_r : rb_adns_state_t) (argv : List RValue) :
    Ret rb_adns_query_t :=
  let argc := argv.length
  let args : Except RbExc (String × Int × Int) := do
    if argc < 2 then throw RbExc.ArgError
    if argc > 3 then throw RbExc.ArgError
    CHECK_TYPE (argv.getD 0 Qnil) .T_STRING
    CHECK_TYPE (argv.getD 1 Qnil) .T_FIXNUM
    if argc = 3 then CHECK_TYPE (argv.getD 2 Qnil) .T_FIXNUM
    let owner ← STR2CSTR (argv.getD 0 Qnil)
    let type ← FIX2INT (argv.getD 1 Qnil)
    let qflags ←
      if argc = 3 then (fun f => Int.lor adns_qf_owner f) <$> FIX2INT (argv.getD 2 Qnil)
      else pure adns_qf_owner
    pure (owner, type, qflags)
  match args with
  | .error e => ⟨.error e, []⟩
  | .ok (owner, type, qflags) =>
    let ecode := w.ecode
    if ecode ≠ 0 then ⟨.error .Error, [.adns_submit rb_ads_r.ads owner type qflags]⟩
    else ⟨.ok { adq := some w.adq, answer := Qnil },
          [.adns_submit rb_ads_r.ads owner type qflags]⟩

/-- The method `ADNS::State#submit_reverse`, `cState_submit_reverse`.  The
`switch` on the type comes after the arguments are converted and before
`inet_aton`, whose return value is tested against -1. -/
def cState_submit_reverse (w : World) (rb_ads_r : rb_adns_state_t) (argv : List RValue) :
    Ret rb_adns_query_t :=
  let argc := argv.length
  let args : Except RbExc (String × Int × Int) := do
    if argc < 2 then throw RbExc.ArgError
    if argc > 3 then throw RbExc.ArgError
    CHECK_TYPE (argv.getD 0 Qnil) .T_STRING
    CHECK_TYPE (argv.getD 1 Qnil) .T_FIXNUM
    if argc = 3 then CHECK_TYPE (argv.getD 2 Qnil) .T_FIXNUM
    let owner ← STR2CSTR (argv.getD 0 Qnil)
    let type ← FIX2INT (argv.getD 1 Qnil)
    let qflags ←
      if argc = 3 then (fun f => Int.lor adns_qf_owner f) <$> FIX2INT (argv.getD 2 Qnil)
      else pure adns_qf_owner
    if type = adns_r_ptr ∨ type = adns_r_ptr_raw then pure ()
    else throw RbExc.ArgError
    pure (owner, type, qflags)
  match args with
  | .error e => ⟨.error e, []⟩
  | .ok (owner, type, qflags) =>
    let ecode := (w.inet_aton owner).1
    let addr := (w.inet_aton owner).2
    if ecode = -1 then ⟨.error .QueryError, []⟩
    else
      let ecode := w.ecode
      if ecode ≠ 0 then
        ⟨.error .Error, [.adns_submit_reverse rb_ads_r.ads addr type qflags]⟩
      else ⟨.ok { adq := some w.adq, answer := Qnil },
            [.adns_submit_reverse rb_ads_r.ads addr type qflags]⟩

/-- The method `ADNS::State#submit_reverse_any`, `cState_submit_reverse_any`;
the return value of `inet_aton` is tested against 0. -/
def cState_submit_reverse_any (w : World) (rb_ads_r : rb_adns_state_t)
    (argv : List RValue) : Ret rb_adns_query_t :=
  let argc := argv.length
  let args : Except RbExc (String × String × Int × Int) := do
    if argc < 3 then throw RbExc.ArgError
    if argc > 4 then throw RbExc.ArgError
    CHECK_TYPE (argv.getD 0 Qnil) .T_STRING
    CHECK_TYPE (argv.getD 1 Qnil) .T_STRING
    CHECK_TYPE (argv.getD 2 Qnil) .T_FIXNUM
    if argc = 4 then CHECK_TYPE (argv.getD 3 Qnil) .T_FIXNUM
    let owner ← STR2CSTR (argv.getD 0 Qnil)
    let zone ← STR2CSTR (argv.getD 1 Qnil)
    let type ← FIX2INT (argv.getD 2 Qnil)
    let qflags ←
      if argc = 4 then (fun f => Int.lor adns_qf_owner f) <$> FIX2INT (argv.getD 3 Qnil)
      else pure adns_qf_owner
    pure (owner, zone, type, qflags)
  match args with
  | .error e => ⟨.error e, []⟩
  | .ok (owner, zone, type, qflags) =>
    let ecode := (w.inet_aton owner).1
    let addr := (w.inet_aton owner).2
    if ecode = 0 then ⟨.error .QueryError, []⟩
    else
      let ecode := w.ecode
      if ecode ≠ 0 then
        ⟨.error .Error, [.adns_submit_reverse_any rb_ads_r.ads addr zone type qflags]⟩
      else ⟨.ok { adq := some w.adq, answer := Qnil },
            [.adns_submit_reverse_any rb_ads_r.ads addr zone type qflags]⟩

/-- The method `ADNS::State#synchronous`, `cState_synchronous`. -/
def cState_synchronous (w : World) (rb_ads_r : rb_adns_state_t) (argv : List RValue) :
    Ret RValue :=
  let answer := rb_hash_new
  let argc := argv.length
  let args : Except RbExc (String × Int × Int) := do
    if argc < 2 then throw RbExc.ArgError
    if argc > 3 then throw RbExc.ArgError
    CHECK_TYPE (argv.getD 0 Qnil) .T_STRING
    CHECK_TYPE (argv.getD 1 Qnil) .T_FIXNUM
    if argc = 3 then CHECK_TYPE (argv.getD 2 Qnil) .T_FIXNUM
    let owner ← STR2CSTR (argv.getD 0 Qnil)
    let type ← FIX2INT (argv.getD 1 Qnil)
    let qflags ←
      if argc = 3 then (fun f => Int.lor adns_qf_owner f) <$> FIX2INT (argv.getD 2 Qnil)
      else pure adns_qf_owner
    pure (owner, type, qflags)
  match args with
  | .error e => ⟨.error e, []⟩
  | .ok (owner, type, qflags) =>
    let ecode := w.ecode
    let answer_r := w.answer_r
    if ecode ≠ 0 then ⟨.error .Error, [.adns_synchronous rb_ads_r.ads owner type qflags]⟩
    else
      let answer := rb_hash_aset answer (CSTR2SYM "type") (INT2FIX answer_r.type)
      let answer := rb_hash_aset answer (CSTR2SYM "owner") (CSTR2STR answer_r.owner)
      let answer := rb_hash_aset answer (CSTR2SYM "status") (INT2FIX answer_r.status)
      let answer := rb_hash_aset answer (CSTR2SYM "expires") (INT2FIX answer_r.expires)
      let answer := rb_hash_aset answer (CSTR2SYM "answer") Qnil
      if answer_r.nrrs = 0 then
        ⟨.ok answer, [.adns_synchronous rb_ads_r.ads owner type qflags]⟩
      else
        let answer :=
          rb_hash_aset answer (CSTR2SYM "answer") (parse_adns_answer w.parse_ecode answer_r)
        ⟨.ok answer, [.adns_synchronous rb_ads_r.ads owner type qflags, .parse_adns_answer]⟩

/-! ## Sequences of calls on one query -/

/-- The methods of `ADNS::Query`. -/
inductive QueryOp where
  | check
  | wait
  | cancel
  deriving DecidableEq, Repr

/-- One method call on a live query record, in a given world. -/
def QueryOp.run (op : QueryOp) (w : World) (rb_adq_r : rb_adns_query_t) : QueryRet :=
  match op with
  | .check => cQuery_check w rb_adq_r
  | .wait => cQuery_wait w rb_adq_r
  | .cancel => cQuery_cancel rb_adq_r

/-- One method call on a Query object whose memory is `m`.  Every method starts
by reading a field through the pointer of the object (`answer` in `check` and
`wait`, `adq` in `cancel`); on freed memory that read is undefined behaviour,
and the call has no result: `none`. -/
def QueryOp.call (op : QueryOp) (w : World) (m : QueryMem) : Option QueryRet :=
  match m with
  | .live rb_adq_r => some (op.run w rb_adq_r)
  | .freed => none

/-- A sequence of method calls on one query, each in its own world; the record
each call leaves is the record the next call finds.  The results are listed in
call order, up to and including a call that frees the record: the calls after
it read freed memory and have no result. -/
def run_ops : List (QueryOp × World) → rb_adns_query_t → List QueryRet
  | [], _ => []
  | (op, w) :: rest, rb_adq_r =>
    (op.run w rb_adq_r) ::
      (if (op.run w rb_adq_r).freed then [] else run_ops rest (op.run w rb_adq_r).query)

/-- Modelled from the spec: the constant `adns_if_none` of `adns.h`, a header that is
not among the sources. -/
def adns_if_none : Int := 0

/-- The macro `DEFAULT_DIAG_FILEMODE`. -/
def DEFAULT_DIAG_FILEMODE : String := "w"

/-- The replies of the world outside the binding during `State.new` or
`State.new2`: `fopen` is the libc call (`none` is NULL), `ecode` the return
value of `adns_init` or `adns_init_strcfg`, and `ads` the library state the call
leaves behind the pointer it is given (0, NULL, when it leaves the pointer as
the binding set it). -/
structure InitWorld where
  fopen : String → String → Option Nat
  ecode : Int
  ads : Nat

/-- The end of `cState_new` and `cState_new2` once the arguments are read: the
diagnostics file is opened if one is named, the library is initialised, and the
State that wraps the record is returned.  The return value `iw.ecode` of the
initialisation is not looked at. -/
def state_init (iw : InitWorld) (file : Option (String × String))
    (init : Option Nat → Event) : Ret rb_adns_state_t :=
  match file with
  | none => ⟨.ok { ads := iw.ads, diagfile := none }, [init none]⟩
  | some (fname, fmode) =>
    match iw.fopen fname fmode with
    | none => ⟨.error .IOError, []⟩
    | some f => ⟨.ok { ads := iw.ads, diagfile := some f }, [init (some f)]⟩

/-- The method `ADNS::State.new`, `cState_new`. -/
def cState_new (iw : InitWorld) (argv : List RValue) : Ret rb_adns_state_t :=
  let argc := argv.length
  let iflags := adns_if_none
  let args : Except RbExc (Int × Option (String × String)) := do
    if argc > 3 then throw RbExc.ArgError
    if argc ≥ 1 then
      CHECK_TYPE (argv.getD 0 Qnil) .T_FIXNUM
      let iflags ← (fun f => Int.lor iflags f) <$> FIX2INT (argv.getD 0 Qnil)
      if argc ≥ 2 then
        CHECK_TYPE (argv.getD 1 Qnil) .T_STRING
        let fname ← STR2CSTR (argv.getD 1 Qnil)
        if argc = 3 then
          CHECK_TYPE (argv.getD 2 Qnil) .T_STRING
          let fmode ← STR2CSTR (argv.getD 2 Qnil)
          pure (iflags, some (fname, fmode))
        else pure (iflags, some (fname, DEFAULT_DIAG_FILEMODE))
      else pure (iflags, none)
    else pure (iflags, none)
  match args with
  | .error e => ⟨.error e, []⟩
  | .ok (iflags, file) => state_init iw file (fun diagfile => .adns_init iflags diagfile)

/-- The method `ADNS::State.new2`, `cState_new2`.  Called without an argument it
hands the library the unset pointer `cfgtxt`, which is `none` here. -/
def cState_new2 (iw : InitWorld) (argv : List RValue) : Ret rb_adns_state_t :=
  let argc := argv.length
  let iflags := adns_if_none
  let args : Except RbExc (Option String × Int × Option (String × String)) := do
    if argc > 4 then throw RbExc.ArgError
    if argc ≥ 1 then
      CHECK_TYPE (argv.getD 0 Qnil) .T_STRING
      let cfgtxt ← STR2CSTR (argv.getD 0 Qnil)
      let iflags ←
        if argc ≥ 2 then do
          CHECK_TYPE (argv.getD 1 Qnil) .T_FIXNUM
          (fun f => Int.lor iflags f) <$> FIX2INT (argv.getD 1 Qnil)
        else pure iflags
      if argc ≥ 3 then
        CHECK_TYPE (argv.getD 2 Qnil) .T_STRING
        let fname ← STR2CSTR (argv.getD 2 Qnil)
        if argc = 4 then
          CHECK_TYPE (argv.getD 3 Qnil) .T_STRING
          let fmode ← STR2CSTR (argv.getD 3 Qnil)
          pure (some cfgtxt, iflags, some (fname, fmode))
        else pure (some cfgtxt, iflags, some (fname, DEFAULT_DIAG_FILEMODE))
      else pure (some cfgtxt, iflags, none)
    else pure (none, iflags, none)
  match args with
  | .error e => ⟨.error e, []⟩
  | .ok (cfgtxt, iflags, file) =>
    state_init iw file (fun diagfile => .adns_init_strcfg iflags diagfile cfgtxt)

/-! ## `ADNS::State#completed_queries` -/

/-- One round of the loop of `cState_completed_queries`, as the world replies
to it: `adq` is the handle `adns_forallqueries_next` returns, `ecode` the return
value of `adns_check` on it, `context` the Query object (by its id) that was
registered with the handle at submit, which `adns_check` stores in `query_ctx`
when it returns 0, `answer_r` the answer it hands back through `answer_r` when
it returns 0, and `parse_ecode` the indeterminate value of the unassigned local
`ecode` of `parse_adns_answer` in this round. -/
structure CheckReply where
  adq : adns_query
  ecode : Int
  context : Nat
  answer_r : adns_answer
  parse_ecode : Int

/-- The replies of the world during `completed_queries`: the return values of
`gettimeofday`, `select` and `gettimeofday` in `adns_select_timeout`, and the
outstanding queries the library enumerates. -/
structure SweepWorld where
  gettimeofday_before : Int
  select_ret : Int
  gettimeofday_after : Int
  outstanding : List CheckReply

/-- The Query objects of a State, by object id: the memory behind each. -/
abbrev QueryHeap := Nat → QueryMem

/-- The variables of `cState_completed_queries` that its loop changes: the
result array, the locals `query_ctx` and `answer_r`, the memory behind the
Query objects, and the events so far.  `query_ctx` is `none` while nothing has
been stored in it.  `answer_r` is `none` while it points at no answer: before
`adns_check` first stores into it, and again after `free(answer_r)`. -/
structure SweepState where
  query_list : List RValue
  query_ctx : Option Nat
  answer_r : Option adns_answer
  queries : QueryHeap
  events : List Event

/-- Result of `completed_queries`: as `Ret`, with the memory behind the Query
objects as the call leaves it. -/
structure SweepRet where
  result : Except RbExc RValue
  queries : QueryHeap
  events : List Event

/-- The conversion of a `double` to the `time_t` of `timeout.tv_sec`: the
fraction is dropped. -/
def double_to_time_t (t : Rat) : Int := Int.tdiv t.num t.den

/-- The helper `adns_select_timeout`: the exception it raises, if any, and its
events. -/
def adns_select_timeout (sw : SweepWorld) (rb_ads_r : rb_adns_state_t) (t : Rat) :
    Except RbExc Unit × List Event :=
  let tv_sec := double_to_time_t t
  let ecode := sw.gettimeofday_before
  if ecode = -1 then (.error .Error, [])
  else
    let ecode := sw.select_ret
    if ecode = -1 then (.error .Error, [.adns_beforeselect rb_ads_r.ads, .select tv_sec])
    else
      let ecode := sw.gettimeofday_after
      if ecode = -1 then (.error .Error, [.adns_beforeselect rb_ads_r.ads, .select tv_sec])
      else (.ok (), [.adns_beforeselect rb_ads_r.ads, .select tv_sec,
        .adns_afterselect rb_ads_r.ads])

/-- One round of the loop of `cState_completed_queries`; `none` is undefined
behaviour.  `adns_check` stores into `query_ctx` and `answer_r` only when it
returns 0.  The round is left by `continue` only when the return value is
`EWOULDBLOCK`; with any other value the rest of the body runs.  The body reads
the record behind `query_ctx` and the answer behind `answer_r`, which is
undefined when either is unset, when `answer_r` was freed in an earlier round
(as it is after every round that ran the body), or when the record was freed.
The body ends with `free(answer_r)`. -/
def completed_queries_round (s : SweepState) (c : CheckReply) : Option SweepState :=
  let ecode := c.ecode
  let query_ctx := if ecode = 0 then some c.context else s.query_ctx
  let answer_r := if ecode = 0 then some c.answer_r else s.answer_r
  let events := s.events ++ [.adns_check c.adq]
  if ecode ≠ 0 ∧ ecode = EWOULDBLOCK then
    some { s with query_ctx := query_ctx, answer_r := answer_r, events := events }
  else
    match query_ctx, answer_r with
    | some ctx, some a =>
      match s.queries ctx with
      | .freed => none
      | .live rb_adq_r =>
        let rb_adq_r := { rb_adq_r with answer := answer_hash c.parse_ecode a }
        let rb_adq_r := { rb_adq_r with adq := none }
        some
          { query_list := s.query_list ++ [.data ctx],
            query_ctx := some ctx,
            answer_r := none,
            queries := Function.update s.queries ctx (.live rb_adq_r),
            events := events ++ [.parse_adns_answer, .free_answer_r] }
    | _, _ => none

/-- The loop of `cState_completed_queries` over the outstanding queries the
library enumerates; `none` as soon as a round is undefined. -/
def completed_queries_loop : List CheckReply → SweepState → Option SweepState
  | [], s => some s
  | c :: rest, s =>
    match completed_queries_round s c with
    | none => none
    | some s1 => completed_queries_loop rest s1

/-- The method `ADNS::State#completed_queries`, `cState_completed_queries`;
`none` when its loop runs into undefined behaviour. -/
def cState_completed_queries (sw : SweepWorld) (rb_ads_r : rb_adns_state_t)
    (queries : QueryHeap) (argv : List RValue) : Option SweepRet :=
  let argc := argv.length
  let query_list : List RValue := []
  let arg : Except RbExc RValue :=
    if argc = 1 then
      let a1 := argv.getD 0 Qnil
      match CHECK_TYPE a1 .T_FLOAT with
      | .error e => .error e
      | .ok _ => .ok a1
    else .ok (.float 0)
  match arg with
  | .error e => some ⟨.error e, queries, []⟩
  | .ok a1 =>
    let timeout : Rat := match a1 with
      | .float x => x
      | _ => 0
    let sel := adns_select_timeout sw rb_ads_r timeout
    match sel.1 with
    | .error e =>
      some ⟨.error e, queries, .adns_select_timeout rb_ads_r.ads timeout :: sel.2⟩
    | .ok _ =>
      (completed_queries_loop sw.outstanding
          { query_list := query_list, query_ctx := none, answer_r := none,
            queries := queries,
            events := .adns_select_timeout rb_ads_r.ads timeout :: sel.2 }).map
        (fun s => ⟨.ok (.ary s.query_list), s.queries, s.events⟩)

/-! ## Sequences of calls on the queries of a State -/

/-- A call that can change a query record: `check`, `wait` or `cancel` on the
Query object `id`, or `completed_queries` on the State; each in its own world. -/
inductive Step where
  | check (id : Nat) (w : World)
  | wait (id : Nat) (w : World)
  | cancel (id : Nat)
  | completed_queries (sw : SweepWorld) (rb_ads_r : rb_adns_state_t) (argv : List RValue)

/-- A method call on the Query object `id`.  The method reads the record through
the pointer of the object, which is undefined behaviour (`none`) when the
memory has been freed; else the object is left with the memory the call
leaves. -/
def on_object (heap : QueryHeap) (id : Nat) (method : rb_adns_query_t → QueryRet) :
    Option QueryHeap :=
  match heap id with
  | .live rb_adq_r => some (Function.update heap id (method rb_adq_r).mem)
  | .freed => none

/-- The memory behind the Query objects after one call; `none` when the call is
undefined behaviour. -/
def Step.apply (heap : QueryHeap) : Step → Option QueryHeap
  | .check id w => on_object heap id (cQuery_check w)
  | .wait id w => on_object heap id (cQuery_wait w)
  | .cancel id => on_object heap id cQuery_cancel
  | .completed_queries sw rb_ads_r argv =>
    (cState_completed_queries sw rb_ads_r heap argv).map (fun r => r.queries)

/-- The memory behind the Query objects after a sequence of calls; `none` when
one of the calls is undefined behaviour. -/
def run_steps : List Step → QueryHeap → Option QueryHeap
  | [], heap => some heap
  | s :: rest, heap =>
    match s.apply heap with
    | none => none
    | some heap1 => run_steps rest heap1

/-! ## Concrete inputs -/

/-- A freshly submitted query: handle 7, no answer yet. -/
def pending_query : rb_adns_query_t := { adq := some 7, answer := Qnil }

/-- An `rrs` union all of whose members read empty records. -/
def empty_rrs : adns_rrs := default

/-- An answer with status OK, owner `example.test`, no records. -/
def empty_answer : adns_answer :=
  { status := adns_s_ok, cname := none, owner := some "example.test", type := adns_r_a,
    expires := 1700000000, nrrs := 0, rrs := empty_rrs }

/-- A world in which the library call succeeds with `empty_answer`, the address
parser rejects every text (return value 0), and the unassigned `ecode` of
`parse_adns_answer` happens to read 0. -/
def quiet_world : World :=
  { ecode := 0, answer_r := empty_answer, adq := 7,
    inet_aton := fun _ => (0, default), parse_ecode := 0 }

/-- The world of a query that is not ready: `adns_check` returns `EWOULDBLOCK`. -/
def busy_world : World := { quiet_world with ecode := EWOULDBLOCK }

/-- An `ADNS::State`. -/
def some_state : rb_adns_state_t := { ads := 1, diagfile := none }

/-- An A answer with the one address 203.0.113.5 and status OK. -/
def a_answer : adns_answer :=
  { status := adns_s_ok, cname := none, owner := some "example.test", type := adns_r_a,
    expires := 1700000000, nrrs := 1,
    rrs := { empty_rrs with inaddr := fun i => if i = 0 then ⟨203, 0, 113, 5⟩ else default } }

/-- An answer of the unknown type 28 (AAAA) with two records. -/
def aaaa_answer : adns_answer := { a_answer with type := 28, nrrs := 2 }

/-- An SRV_RAW answer with one record `10 60 5060 sip.example.test`. -/
def srv_raw_answer : adns_answer :=
  { status := adns_s_ok, cname := none, owner := some "_sip._udp.example.test",
    type := adns_r_srv_raw, expires := 1700000000, nrrs := 1,
    rrs := { empty_rrs with
      srvraw := fun _ => ⟨10, 60, 5060, some "sip.example.test"⟩ } }

/-- An SRV answer (dereferenced) with one record `10 60 5060 sip.example.test`,
the host resolved to 203.0.113.5. -/
def srv_answer : adns_answer :=
  { status := adns_s_ok, cname := none, owner := some "_sip._udp.example.test",
    type := adns_r_srv, expires := 1700000000, nrrs := 1,
    rrs := { empty_rrs with
      srvha := fun _ => ⟨10, 60, 5060,
        ⟨some "sip.example.test", adns_s_ok, 1, fun _ => ⟨⟨203, 0, 113, 5⟩⟩⟩⟩ } }

/-- An RP_RAW answer with one record `hostmaster.example.test info.example.test`. -/
def rp_raw_answer : adns_answer :=
  { status := adns_s_ok, cname := none, owner := some "example.test", type := adns_r_rp_raw,
    expires := 1700000000, nrrs := 1,
    rrs := { empty_rrs with
      strpair := fun _ => ⟨some "hostmaster.example.test", some "info.example.test"⟩ } }

/-- The same answer with the type RP (`adns_r_rp_raw | adns__qtf_mail822`). -/
def rp_answer : adns_answer := { rp_raw_answer with type := adns_r_rp }

/-- An MX_RAW answer with the records `10 mx1.example.test` and
`20 mx2.example.test`. -/
def mx_raw_answer : adns_answer :=
  { status := adns_s_ok, cname := none, owner := some "example.test", type := adns_r_mx_raw,
    expires := 1700000000, nrrs := 2,
    rrs := { empty_rrs with
      intstr := fun i =>
        if i = 0 then ⟨10, some "mx1.example.test"⟩ else ⟨20, some "mx2.example.test"⟩ } }

/-- A dereferenced MX answer with the record `10 mx1.example.test`, the host
resolved to 203.0.113.5. -/
def mx_answer : adns_answer :=
  { status := adns_s_ok, cname := none, owner := some "example.test", type := adns_r_mx,
    expires := 1700000000, nrrs := 1,
    rrs := { empty_rrs with
      inthostaddr := fun _ =>
        ⟨10, ⟨some "mx1.example.test", adns_s_ok, 1,
          fun _ => ⟨⟨203, 0, 113, 5⟩⟩⟩⟩ } }

/-- A world as `quiet_world`, but whose address parser accepts every text, as
the address 192.0.2.1 (return value 1). -/
def accepting_world : World := { quiet_world with inet_aton := fun _ => (1, ⟨192, 0, 2, 1⟩) }

/-- The state of two outstanding queries: object 1 with handle 7 and object 2
with handle 8, both live and pending; every other id holds a live, spent
record. -/
def two_pending : QueryHeap := fun id =>
  if id = 1 then .live { adq := some 7, answer := Qnil }
  else if id = 2 then .live { adq := some 8, answer := Qnil }
  else .live { adq := none, answer := Qnil }

/-- A sweep in which the library reports query 7 (object 1) complete with
`a_answer`, and then returns the code 22 for query 8 (object 2). -/
def failing_sweep : SweepWorld :=
  { gettimeofday_before := 0, select_ret := 0, gettimeofday_after := 0,
    outstanding := [⟨7, 0, 1, a_answer, 0⟩, ⟨8, 22, 2, a_answer, 0⟩] }

/-- A sweep in which the library reports query 7 (object 1) complete with
`a_answer` and query 8 (object 2) not ready. -/
def plain_sweep : SweepWorld :=
  { failing_sweep with
    outstanding := [⟨7, 0, 1, a_answer, 0⟩, ⟨8, EWOULDBLOCK, 2, a_answer, 0⟩] }

/-- A world of `State.new` in which the library initialisation fails with the
code 12 and leaves the state pointer NULL. -/
def failing_init : InitWorld := { fopen := fun _ _ => none, ecode := 12, ads := 0 }

/-! ## Lemmas -/

theorem fits_fixnum_of_fits_int (i : Int) (h : fits_int i) : fits_fixnum i := by
  unfold fits_int at h
  unfold fits_fixnum
  constructor <;> omega

theorem answer_hash_ne_nil (e : Int) (a : adns_answer) : answer_hash e a ≠ Qnil := by
  simp [answer_hash, rb_hash_new, rb_hash_aset, Qnil]

theorem check_cached (w : World) (q : rb_adns_query_t) (h : q.answer ≠ Qnil) :
    cQuery_check w q = ⟨.ok q.answer, q, []⟩ := by
  simp [cQuery_check, h]

theorem wait_cached (w : World) (q : rb_adns_query_t) (h : q.answer ≠ Qnil) :
    cQuery_wait w q = ⟨.ok q.answer, q, []⟩ := by
  simp [cQuery_wait, h]

theorem check_ok_caches (w : World) (q : rb_adns_query_t) (a : RValue)
    (h : (cQuery_check w q).result = .ok a) :
    (cQuery_check w q).query.answer = a ∧ a ≠ Qnil := by
  by_cases hq : q.answer = Qnil
  · cases hadq : q.adq with
    | none => simp [cQuery_check, hq, hadq] at h
    | some adq =>
      by_cases he : w.ecode = 0
      · simp only [cQuery_check, hq, hadq, he, ne_eq, not_true_eq_false, if_false,
          Except.ok.injEq] at h ⊢
        exact ⟨h, h ▸ answer_hash_ne_nil _ _⟩
      · by_cases hb : w.ecode = EWOULDBLOCK
        · simp [cQuery_check, hq, hadq, hb, EWOULDBLOCK] at h
        · simp [cQuery_check, hq, hadq, he, hb] at h
  · simp only [cQuery_check, hq, ne_eq, not_false_eq_true, if_true, Except.ok.injEq] at h ⊢
    exact ⟨h, h ▸ hq⟩

theorem wait_ok_caches (w : World) (q : rb_adns_query_t) (a : RValue)
    (h : (cQuery_wait w q).result = .ok a) :
    (cQuery_wait w q).query.answer = a ∧ a ≠ Qnil := by
  by_cases hq : q.answer = Qnil
  · cases hadq : q.adq with
    | none => simp [cQuery_wait, hq, hadq] at h
    | some adq =>
      by_cases he : w.ecode = 0
      · simp only [cQuery_wait, hq, hadq, he, ne_eq, not_true_eq_false, if_false,
          Except.ok.injEq] at h ⊢
        exact ⟨h, h ▸ answer_hash_ne_nil _ _⟩
      · simp [cQuery_wait, hq, hadq, he] at h
  · simp only [cQuery_wait, hq, ne_eq, not_false_eq_true, if_true, Except.ok.injEq] at h ⊢
    exact ⟨h, h ▸ hq⟩

theorem run_ops_cached (ops : List (QueryOp × World)) (q : rb_adns_query_t)
    (hq : q.answer ≠ Qnil) (hops : ∀ p ∈ ops, p.1 = QueryOp.check ∨ p.1 = QueryOp.wait) :
    run_ops ops q = List.replicate ops.length ⟨.ok q.answer, q, []⟩ := by
  induction ops with
  | nil => rfl
  | cons p rest ih =>
    obtain ⟨op, w⟩ := p
    have hop : op = QueryOp.check ∨ op = QueryOp.wait := hops (op, w) (List.mem_cons_self _ _)
    have hrun : op.run w q = ⟨.ok q.answer, q, []⟩ := by
      rcases hop with h | h
      · subst h; exact check_cached w q hq
      · subst h; exact wait_cached w q hq
    have hfreed : (⟨.ok q.answer, q, []⟩ : QueryRet).freed = false := rfl
    simp only [run_ops, List.length_cons, List.replicate_succ, hrun, hfreed]
    rw [ih (fun p hp => hops p (List.mem_cons_of_mem _ hp))]
    rfl

theorem foldl_store_eq_map (f : Nat → RValue) (n : Nat) :
    (List.range n).foldl (fun acc idx => rb_ary_store acc idx (f idx)) rb_ary_new =
      .ary ((List.range n).map f) := by
  induction n with
  | zero => rfl
  | succ n ih =>
    rw [List.range_succ, List.foldl_append, ih]
    simp [rb_ary_store, ary_store_body]

theorem parse_adns_answer_eq_map (ecode : Int) (a : adns_answer) :
    parse_adns_answer ecode a =
      .ary ((List.range a.nrrs).map
        (parse_adns_answer_rr ecode a (a.type &&& adns_rrt_typemask)
          (a.type &&& adns__qtf_deref))) := by
  unfold parse_adns_answer
  by_cases h : a.nrrs = 0
  · simp [h, rb_ary_new]
  · simp only [h, if_false]
    exact foldl_store_eq_map _ _

theorem masked_lt (type : Nat) : type &&& adns_rrt_typemask < 0x10000 := by
  have := @Nat.and_le_right type adns_rrt_typemask
  unfold adns_rrt_typemask at this ⊢
  omega

theorem entry_parse_adns_answer (ecode : Int) (a : adns_answer) (i : Nat) (hi : i < a.nrrs) :
    rb_ary_entry (parse_adns_answer ecode a) i =
      parse_adns_answer_rr ecode a (a.type &&& adns_rrt_typemask)
        (a.type &&& adns__qtf_deref) i := by
  rw [parse_adns_answer_eq_map]
  simp [rb_ary_entry, List.getD_eq_getElem?_getD, hi]

theorem parse_adns_rr_hostaddr_eq (ha : adns_rr_hostaddr) :
    parse_adns_rr_hostaddr ha =
      .hash [("host", CSTR2STR ha.host), ("status", INT2FIX ha.astatus),
        ("addr", .ary ((List.range ha.naddrs.toNat).map
          (fun idx => parse_adns_rr_addr (ha.addrs idx))))] := by
  have hfold : (if ha.naddrs > 0 then
        (List.range ha.naddrs.toNat).foldl
          (fun acc idx => rb_ary_store acc idx (parse_adns_rr_addr (ha.addrs idx))) rb_ary_new
      else rb_ary_new) =
      .ary ((List.range ha.naddrs.toNat).map (fun idx => parse_adns_rr_addr (ha.addrs idx))) := by
    by_cases h : ha.naddrs > 0
    · simp only [h, if_true]
      exact foldl_store_eq_map _ _
    · have h0 : ha.naddrs.toNat = 0 := by
        apply Int.toNat_of_nonpos
        omega
      simp [h, h0, rb_ary_new]
  unfold parse_adns_rr_hostaddr
  simp only [hfold]
  simp [rb_hash_aset, rb_hash_new, hash_aset_body, CSTR2SYM]

/-- C1: a pending query (cached answer nil, handle set) for which `adns_check`
reports `EWOULDBLOCK` makes `check` raise `NotReadyError` after the one library
call, and the query record is left as it was: the handle still set, the cached
answer still nil. -/
theorem C1_check_not_ready_keeps_query (w : World) (q : rb_adns_query_t) (adq : adns_query)
    (hanswer : q.answer = Qnil) (hadq : q.adq = some adq) (hecode : w.ecode = EWOULDBLOCK) :
    (cQuery_check w q).result = .error .NotReadyError ∧
    (cQuery_check w q).events = [.adns_check adq] ∧
    (cQuery_check w q).query = q ∧
    (cQuery_check w q).query.adq = some adq ∧
    (cQuery_check w q).query.answer = Qnil := by
  simp [cQuery_check, hanswer, hadq, hecode, EWOULDBLOCK]

/-- Witness of C1 on the pending query with handle 7. -/
theorem C1_check_not_ready_keeps_query_witness :
    (cQuery_check busy_world pending_query).result = .error .NotReadyError ∧
    (cQuery_check busy_world pending_query).events = [.adns_check 7] ∧
    (cQuery_check busy_world pending_query).query = pending_query ∧
    (cQuery_check busy_world pending_query).query.adq = some 7 ∧
    (cQuery_check busy_world pending_query).query.answer = Qnil :=
  C1_check_not_ready_keeps_query busy_world pending_query 7 rfl rfl rfl

/-- C2: once `check` or `wait` has returned an answer `a` on a query, every
later `check` or `wait` on it, in any number and order and whatever the library
would reply, returns the same `a`, makes no library call, does not run
`parse_adns_answer` again, and leaves the record as it is. -/
theorem C2_answer_is_cached (q : rb_adns_query_t) (op : QueryOp) (w : World) (a : RValue)
    (hop : op = QueryOp.check ∨ op = QueryOp.wait)
    (hfirst : (op.run w q).result = .ok a)
    (ops : List (QueryOp × World))
    (hops : ∀ p ∈ ops, p.1 = QueryOp.check ∨ p.1 = QueryOp.wait) :
    run_ops ops (op.run w q).query =
      List.replicate ops.length ⟨.ok a, (op.run w q).query, []⟩ := by
  have hc : (op.run w q).query.answer = a ∧ a ≠ Qnil := by
    rcases hop with h | h
    · subst h; exact check_ok_caches w q a hfirst
    · subst h; exact wait_ok_caches w q a hfirst
  have hne : (op.run w q).query.answer ≠ Qnil := by rw [hc.1]; exact hc.2
  have := run_ops_cached ops (op.run w q).query hne hops
  rw [hc.1] at this
  exact this

/-- Witness of C2: `check` succeeds on a pending query, then `wait`, `check`,
`check` follow, the library being busy or not. -/
theorem C2_answer_is_cached_witness :
    (QueryOp.check.run quiet_world pending_query).result =
      .ok (answer_hash 0 empty_answer) ∧
    run_ops [(QueryOp.wait, busy_world), (QueryOp.check, quiet_world),
        (QueryOp.check, busy_world)] (QueryOp.check.run quiet_world pending_query).query =
      List.replicate 3
        ⟨.ok (answer_hash 0 empty_answer),
          (QueryOp.check.run quiet_world pending_query).query, []⟩ :=
  ⟨rfl, C2_answer_is_cached pending_query QueryOp.check quiet_world
    (answer_hash 0 empty_answer) (Or.inl rfl) rfl
    [(QueryOp.wait, busy_world), (QueryOp.check, quiet_world), (QueryOp.check, busy_world)]
    (by simp)⟩

/-- C3, at the failing input: `cancel` on the pending query with handle 7, then
`check`, `wait` or `cancel` again.  `cancel` calls `adns_cancel` and then
`cQuery_free` on the record of the object itself, which ends in
`free(rb_adq_r)`; the object keeps its pointer, so each later call reads freed
memory and has no defined result, where the claim has it raise `QueryError`. -/
theorem C3_cancel_frees_the_record :
    (cQuery_cancel pending_query).result = .ok Qnil ∧
    (cQuery_cancel pending_query).events = [.adns_cancel 7, .free_rb_adq_r] ∧
    (cQuery_cancel pending_query).mem = QueryMem.freed ∧
    QueryOp.check.call quiet_world (cQuery_cancel pending_query).mem = none ∧
    QueryOp.wait.call quiet_world (cQuery_cancel pending_query).mem = none ∧
    QueryOp.cancel.call quiet_world (cQuery_cancel pending_query).mem = none ∧
    run_ops [(QueryOp.cancel, quiet_world), (QueryOp.check, quiet_world),
        (QueryOp.wait, quiet_world), (QueryOp.cancel, quiet_world)] pending_query =
      [cQuery_cancel pending_query] := by
  decide

/-- C4, as the claim states it, fails: `submit_reverse` with the record type A
raises `ArgumentError`, which is not `QueryError`. -/
theorem C4_counterexample :
    (cState_submit_reverse quiet_world some_state
        [.str "192.0.2.1", .fixnum adns_r_a]).result = .error .ArgError ∧
    (cState_submit_reverse quiet_world some_state
        [.str "192.0.2.1", .fixnum adns_r_a]).result ≠ .error .QueryError := by
  decide

/-- C4, amended: for every record type other than PTR and PTR_RAW, given an
address string, the type and optionally flags as fixnums in the range of a C
`int`, `submit_reverse` raises `ArgumentError` and makes no library call. -/
theorem C4_submit_reverse_rejects_type (w : World) (st : rb_adns_state_t) (ipaddr : String)
    (type qflags : Int) (argv : List RValue)
    (hargv : argv = [.str ipaddr, .fixnum type] ∨
      argv = [.str ipaddr, .fixnum type, .fixnum qflags])
    (htype : fits_int type) (hflags : fits_int qflags)
    (hptr : type ≠ adns_r_ptr) (hraw : type ≠ adns_r_ptr_raw) :
    (cState_submit_reverse w st argv).result = .error .ArgError ∧
    (cState_submit_reverse w st argv).events = [] := by
  have htype2 := fits_fixnum_of_fits_int type htype
  have hflags2 := fits_fixnum_of_fits_int qflags hflags
  rcases hargv with h | h <;> subst h <;>
    simp [cState_submit_reverse, CHECK_TYPE, STR2CSTR, FIX2INT, htype, hflags, htype2,
      hflags2, hptr, hraw, Qnil, bind, Except.bind, pure, Except.pure, Functor.map, Except.map]

/-- Witness of C4 amended: type MX with flags. -/
theorem C4_submit_reverse_rejects_type_witness :
    (cState_submit_reverse quiet_world some_state
        [.str "192.0.2.1", .fixnum adns_r_mx, .fixnum 1]).result = .error .ArgError ∧
    (cState_submit_reverse quiet_world some_state
        [.str "192.0.2.1", .fixnum adns_r_mx, .fixnum 1]).events = [] :=
  C4_submit_reverse_rejects_type quiet_world some_state "192.0.2.1" adns_r_mx 1 _
    (Or.inr rfl) (by decide) (by decide) (by decide) (by decide)

/-- C5: when the address parser rejects the address text (`inet_aton` returns
0), `submit_reverse_any` raises `QueryError` and makes no library call, whatever
the zone, the type and the (optional) flags, these being fixnums in the range of
a C `int`. -/
theorem C5_submit_reverse_any_rejects_address (w : World) (st : rb_adns_state_t)
    (ipaddr zone : String) (type qflags : Int) (argv : List RValue)
    (hargv : argv = [.str ipaddr, .str zone, .fixnum type] ∨
      argv = [.str ipaddr, .str zone, .fixnum type, .fixnum qflags])
    (htype : fits_int type) (hflags : fits_int qflags)
    (hrejects : (w.inet_aton (cstr ipaddr)).1 = 0) :
    (cState_submit_reverse_any w st argv).result = .error .QueryError ∧
    (cState_submit_reverse_any w st argv).events = [] := by
  have htype2 := fits_fixnum_of_fits_int type htype
  have hflags2 := fits_fixnum_of_fits_int qflags hflags
  rcases hargv with h | h <;> subst h <;>
    simp [cState_submit_reverse_any, CHECK_TYPE, STR2CSTR, FIX2INT, htype, hflags, htype2,
      hflags2, hrejects, Qnil, bind, Except.bind, pure, Except.pure, Functor.map, Except.map]

/-- Witness of C5: a text that is no address, zone `in-addr.arpa`, type PTR_RAW. -/
theorem C5_submit_reverse_any_rejects_address_witness :
    (cState_submit_reverse_any quiet_world some_state
        [.str "no.address", .str "in-addr.arpa", .fixnum adns_r_ptr_raw]).result =
      .error .QueryError ∧
    (cState_submit_reverse_any quiet_world some_state
        [.str "no.address", .str "in-addr.arpa", .fixnum adns_r_ptr_raw]).events = [] :=
  C5_submit_reverse_any_rejects_address quiet_world some_state "no.address" "in-addr.arpa"
    adns_r_ptr_raw 0 _ (Or.inl rfl) (by decide) (by decide) rfl

/-- C6, at the failing input: the address text `no.address`, which the parser
rejects with return value 0, and type PTR_RAW.  `submit_reverse` tests the
return value against -1, so it hands the unparsed address to
`adns_submit_reverse` and returns a query, where `submit_reverse_any` raises
`QueryError` on the same text. -/
theorem C6_submit_reverse_accepts_rejected_address :
    (quiet_world.inet_aton (cstr "no.address")).1 = 0 ∧
    (cState_submit_reverse quiet_world some_state
        [.str "no.address", .fixnum adns_r_ptr_raw]).result =
      .ok { adq := some 7, answer := Qnil } ∧
    (cState_submit_reverse quiet_world some_state
        [.str "no.address", .fixnum adns_r_ptr_raw]).events =
      [.adns_submit_reverse 1 (quiet_world.inet_aton (cstr "no.address")).2
        adns_r_ptr_raw adns_qf_owner] ∧
    (cState_submit_reverse_any quiet_world some_state
        [.str "no.address", .str "in-addr.arpa", .fixnum adns_r_ptr_raw]).result =
      .error .QueryError := by
  decide

/-- C8: for every answer whose masked type is none of A, NS, CNAME, PTR, SOA,
HINFO, MX, TXT, RP, SRV, `parse_adns_answer` returns an array with an empty
hash in each of the `nrrs` slots, and the record data is not read: the result
is the same whatever the union `rrs` holds. -/
theorem C8_unknown_type_gives_empty_hashes (ecode : Int) (a : adns_answer) (rrs : adns_rrs)
    (hunknown : (a.type &&& adns_rrt_typemask) ∉
      [adns_r_a, adns_r_ns_raw, adns_r_cname, adns_r_ptr_raw, adns_r_soa_raw, adns_r_hinfo,
        adns_r_mx_raw, adns_r_txt, adns_r_rp_raw, adns_r_srv_raw]) :
    parse_adns_answer ecode a = .ary (List.replicate a.nrrs rb_hash_new) ∧
    parse_adns_answer ecode { a with rrs := rrs } = parse_adns_answer ecode a := by
  have hlt := masked_lt a.type
  simp only [List.mem_cons, List.mem_singleton, not_or, List.not_mem_nil, not_false_eq_true,
    and_true] at hunknown
  obtain ⟨hA, hNS, hCNAME, hPTR, hSOA, hHINFO, hMX, hTXT, -, -⟩ := hunknown
  have hrr : ∀ (c : adns_answer) (i : Nat), c.type = a.type →
      parse_adns_answer_rr ecode c (c.type &&& adns_rrt_typemask)
        (c.type &&& adns__qtf_deref) i = rb_hash_new := by
    intro c i hc
    rw [hc]
    have h1 : a.type &&& adns_rrt_typemask ≠ adns_r_ptr := by
      have e : adns_r_ptr = 0x1000c := by decide
      omega
    have h2 : a.type &&& adns_rrt_typemask ≠ adns_r_rp := by
      have e : adns_r_rp = 0x20011 := by decide
      omega
    have h3 : a.type &&& adns_rrt_typemask ≠ adns_r_srv := by
      have e : adns_r_srv = 0x10021 := by decide
      omega
    simp [parse_adns_answer_rr, hA, hNS, hCNAME, hPTR, hSOA, hHINFO, hMX, hTXT, h1, h2, h3]
  have hall : ∀ c : adns_answer, c.type = a.type → c.nrrs = a.nrrs →
      parse_adns_answer ecode c = .ary (List.replicate a.nrrs rb_hash_new) := by
    intro c hc hn
    rw [parse_adns_answer_eq_map, hn]
    congr 1
    apply List.ext_getElem
    · simp
    · intro i h1 h2
      simp [hrr c _ hc]
  exact ⟨hall a rfl rfl, by rw [hall a rfl rfl, hall { a with rrs := rrs } rfl rfl]⟩

/-- Witness of C8: an answer of type 28 with two records. -/
theorem C8_unknown_type_gives_empty_hashes_witness :
    parse_adns_answer 0 aaaa_answer = .ary (List.replicate aaaa_answer.nrrs rb_hash_new) ∧
    parse_adns_answer 0 { aaaa_answer with rrs := srv_answer.rrs } =
      parse_adns_answer 0 aaaa_answer :=
  C8_unknown_type_gives_empty_hashes 0 aaaa_answer srv_answer.rrs (by decide)

/-- C9, at the failing input: the A answer with the one address 203.0.113.5 and
status OK.  When the unassigned local `ecode` of `parse_adns_answer` reads a
non-zero value, `synchronous` returns the answer `[""]`; it returns
`["203.0.113.5"]` only when that local happens to read 0. -/
theorem C9_synchronous_reads_unassigned_ecode :
    (cState_synchronous { quiet_world with answer_r := a_answer, parse_ecode := 1 } some_state
        [.str "example.test", .fixnum adns_r_a]).result =
      .ok (.hash [("type", .fixnum 1), ("owner", .str "example.test"), ("status", .fixnum 0),
        ("expires", .fixnum 1700000000), ("answer", .ary [.str ""])]) ∧
    (cState_synchronous { quiet_world with answer_r := a_answer, parse_ecode := 0 } some_state
        [.str "example.test", .fixnum adns_r_a]).result =
      .ok (.hash [("type", .fixnum 1), ("owner", .str "example.test"), ("status", .fixnum 0),
        ("expires", .fixnum 1700000000), ("answer", .ary [.str "203.0.113.5"])]) := by
  decide

/-- C10, at the failing inputs: an SRV_RAW answer and a dereferenced SRV answer,
each with the record `10 60 5060 sip.example.test`.  The masked type 33 is
compared with `adns_r_srv` = 0x10021, so the SRV branch is never taken and the
slot is the empty hash of the unknown-type branch: no priority, weight, port
or host. -/
theorem C10_srv_answer_decodes_to_empty_hash :
    parse_adns_answer 0 srv_raw_answer = .ary [.hash []] ∧
    parse_adns_answer 0 srv_answer = .ary [.hash []] ∧
    rb_hash_aref (rb_ary_entry (parse_adns_answer 0 srv_raw_answer) 0) "priority" = Qnil ∧
    rb_hash_aref (rb_ary_entry (parse_adns_answer 0 srv_answer) 0) "port" = Qnil := by
  decide

/-- C11, at the failing inputs: an RP_RAW answer and an RP answer, each with the
record `hostmaster.example.test info.example.test`.  The masked type 17 is
compared with `adns_r_rp` = 0x20011, so the RP branch is never taken and the
slot is the empty hash of the unknown-type branch, not the pair of the two
strings. -/
theorem C11_rp_answer_decodes_to_empty_hash :
    parse_adns_answer 0 rp_raw_answer = .ary [.hash []] ∧
    parse_adns_answer 0 rp_answer = .ary [.hash []] ∧
    rb_ary_entry (parse_adns_answer 0 rp_raw_answer) 0 ≠
      .ary [.str "hostmaster.example.test", .str "info.example.test"] := by
  decide

/-- C12: in an MX answer (masked type `adns_r_mx_raw`) every slot has the key
`preference` with the Fixnum of the record's preference.  Without the
dereference bit (MX_RAW) the slot is the hash of exactly `host`, the raw host
string, and `preference`; with it (MX) the slot is the host+address hash of the
record's `ha`, keys `host`, `status`, `addr`, with `preference` added. -/
theorem C12_mx_slot (ecode : Int) (a : adns_answer) (i : Nat) (hi : i < a.nrrs)
    (hmx : a.type &&& adns_rrt_typemask = adns_r_mx_raw) :
    (a.type &&& adns__qtf_deref = 0 →
      rb_ary_entry (parse_adns_answer ecode a) i =
        .hash [("host", CSTR2STR (a.rrs.intstr i).str),
          ("preference", INT2FIX (a.rrs.intstr i).i)] ∧
      rb_hash_keys (rb_ary_entry (parse_adns_answer ecode a) i) = ["host", "preference"] ∧
      rb_hash_aref (rb_ary_entry (parse_adns_answer ecode a) i) "preference" =
        INT2FIX (a.rrs.intstr i).i) ∧
    (a.type &&& adns__qtf_deref ≠ 0 →
      rb_ary_entry (parse_adns_answer ecode a) i =
        rb_hash_aset (parse_adns_rr_hostaddr (a.rrs.inthostaddr i).ha) "preference"
          (INT2FIX (a.rrs.inthostaddr i).i) ∧
      rb_hash_keys (rb_ary_entry (parse_adns_answer ecode a) i) =
        ["host", "status", "addr", "preference"] ∧
      rb_hash_aref (rb_ary_entry (parse_adns_answer ecode a) i) "preference" =
        INT2FIX (a.rrs.inthostaddr i).i ∧
      rb_hash_aref (rb_ary_entry (parse_adns_answer ecode a) i) "host" =
        CSTR2STR (a.rrs.inthostaddr i).ha.host ∧
      rb_hash_aref (rb_ary_entry (parse_adns_answer ecode a) i) "status" =
        INT2FIX (a.rrs.inthostaddr i).ha.astatus) := by
  rw [entry_parse_adns_answer ecode a i hi, hmx]
  have n1 : adns_r_mx_raw ≠ adns_r_a := by decide
  have n2 : adns_r_mx_raw ≠ adns_r_ns_raw := by decide
  have n3 : adns_r_mx_raw ≠ adns_r_cname := by decide
  have n4 : adns_r_mx_raw ≠ adns_r_ptr := by decide
  have n5 : adns_r_mx_raw ≠ adns_r_ptr_raw := by decide
  have n6 : adns_r_mx_raw ≠ adns_r_soa_raw := by decide
  have n7 : adns_r_mx_raw ≠ adns_r_hinfo := by decide
  constructor
  · intro hraw
    simp [parse_adns_answer_rr, hraw, n1, n2, n3, n4, n5, n6, n7,
      rb_hash_aset, rb_hash_new, hash_aset_body, CSTR2SYM, rb_hash_keys, rb_hash_aref]
  · intro hderef
    simp [parse_adns_answer_rr, hderef, n1, n2, n3, n4, n5, n6, n7,
      parse_adns_rr_hostaddr_eq,
      rb_hash_aset, hash_aset_body, CSTR2SYM, rb_hash_keys, rb_hash_aref]

/-- Witness of C12: slot 1 of the MX_RAW answer with two records, and slot 0
of the dereferenced MX answer. -/
theorem C12_mx_slot_witness :
    (1 < mx_raw_answer.nrrs ∧
      mx_raw_answer.type &&& adns_rrt_typemask = adns_r_mx_raw ∧
      mx_raw_answer.type &&& adns__qtf_deref = 0 ∧
      rb_ary_entry (parse_adns_answer 0 mx_raw_answer) 1 =
        .hash [("host", .str "mx2.example.test"), ("preference", .fixnum 20)]) ∧
    (0 < mx_answer.nrrs ∧
      mx_answer.type &&& adns_rrt_typemask = adns_r_mx_raw ∧
      mx_answer.type &&& adns__qtf_deref ≠ 0 ∧
      rb_ary_entry (parse_adns_answer 0 mx_answer) 0 =
        .hash [("host", .str "mx1.example.test"), ("status", .fixnum 0),
          ("addr", .ary [.str "203.0.113.5"]), ("preference", .fixnum 10)]) :=
  ⟨⟨by decide, by decide, by decide,
      ((C12_mx_slot 0 mx_raw_answer 1 (by decide) (by decide)).1 (by decide)).1⟩,
    ⟨by decide, by decide, by decide,
      ((C12_mx_slot 0 mx_answer 0 (by decide) (by decide)).2 (by decide)).1⟩⟩

/-- C13, as the claim states it, fails at `nrrs = 0`: for the answer with no
records `synchronous` returns a hash whose `answer` is nil, while `submit`
followed by `wait` returns a hash whose `answer` is the empty array. -/
theorem C13_counterexample :
    (cState_synchronous quiet_world some_state
        [.str "example.test", .fixnum adns_r_a]).result =
      .ok (.hash [("type", .fixnum 1), ("owner", .str "example.test"), ("status", .fixnum 0),
        ("expires", .fixnum 1700000000), ("answer", .nil)]) ∧
    (cState_submit quiet_world some_state
        [.str "example.test", .fixnum adns_r_a]).result = .ok pending_query ∧
    (cQuery_wait quiet_world pending_query).result =
      .ok (.hash [("type", .fixnum 1), ("owner", .str "example.test"), ("status", .fixnum 0),
        ("expires", .fixnum 1700000000), ("answer", .ary [])]) ∧
    (cState_synchronous quiet_world some_state
        [.str "example.test", .fixnum adns_r_a]).result ≠
      (cQuery_wait quiet_world pending_query).result := by
  decide

/-- C13, amended: given a domain string, a type and optionally flags (fixnums in
the range of a C `int`), let the library accept the query and yield the answer
`r` both to `adns_synchronous` and to `adns_wait`, the unassigned local `ecode`
of `parse_adns_answer` reading the same value in both decodings.  When `r` has
at least one record, `synchronous` returns the same hash as `submit` followed
by `wait`.  When `r` has no record the two hashes agree on `type`, `owner`,
`status` and `expires`, and `answer` is nil from `synchronous` and the empty
array from `wait`. -/
theorem C13_synchronous_eq_submit_wait (ws wsub ww : World) (st : rb_adns_state_t)
    (r : adns_answer) (owner : String) (type qflags : Int) (argv : List RValue)
    (hargv : argv = [.str owner, .fixnum type] ∨
      argv = [.str owner, .fixnum type, .fixnum qflags])
    (htype : fits_int type) (hflags : fits_int qflags)
    (hs : ws.ecode = 0) (hsr : ws.answer_r = r)
    (hsub : wsub.ecode = 0)
    (hw : ww.ecode = 0) (hwr : ww.answer_r = r)
    (he : ws.parse_ecode = ww.parse_ecode) :
    (cState_submit wsub st argv).result = .ok ⟨some wsub.adq, Qnil⟩ ∧
    (r.nrrs ≠ 0 →
      (cState_synchronous ws st argv).result =
        (cQuery_wait ww ⟨some wsub.adq, Qnil⟩).result) ∧
    (r.nrrs = 0 →
      (cState_synchronous ws st argv).result =
        .ok (.hash [("type", INT2FIX r.type), ("owner", CSTR2STR r.owner),
          ("status", INT2FIX r.status), ("expires", INT2FIX r.expires), ("answer", Qnil)]) ∧
      (cQuery_wait ww ⟨some wsub.adq, Qnil⟩).result =
        .ok (.hash [("type", INT2FIX r.type), ("owner", CSTR2STR r.owner),
          ("status", INT2FIX r.status), ("expires", INT2FIX r.expires),
          ("answer", .ary [])])) := by
  have htype2 := fits_fixnum_of_fits_int type htype
  have hflags2 := fits_fixnum_of_fits_int qflags hflags
  have hwait : (cQuery_wait ww ⟨some wsub.adq, Qnil⟩).result =
      .ok (answer_hash ww.parse_ecode r) := by
    simp [cQuery_wait, hw, hwr]
  rw [hwait]
  refine ⟨?_, ?_, ?_⟩
  · rcases hargv with h | h <;> subst h <;>
      simp [cState_submit, CHECK_TYPE, STR2CSTR, FIX2INT, htype, hflags, htype2, hflags2,
        hsub, Qnil, bind, Except.bind, pure, Except.pure, Functor.map, Except.map]
  · intro hn
    rcases hargv with h | h <;> subst h <;>
      simp [cState_synchronous, CHECK_TYPE, STR2CSTR, FIX2INT, htype, hflags, htype2, hflags2,
        hs, hsr, hn, he, answer_hash, rb_hash_aset, rb_hash_new, hash_aset_body, CSTR2SYM,
        Qnil, bind, Except.bind, pure, Except.pure, Functor.map, Except.map]
  · intro hn
    have hparse : parse_adns_answer ww.parse_ecode r = .ary [] := by
      simp [parse_adns_answer, hn, rb_ary_new]
    rcases hargv with h | h <;> subst h <;>
      simp [cState_synchronous, CHECK_TYPE, STR2CSTR, FIX2INT, htype, hflags, htype2, hflags2,
        hs, hsr, hn, hparse, answer_hash, rb_hash_aset, rb_hash_new, hash_aset_body, CSTR2SYM,
        Qnil, bind, Except.bind, pure, Except.pure, Functor.map, Except.map]

/-- Witness of C13 amended: the A answer with one record, flags omitted. -/
theorem C13_synchronous_eq_submit_wait_witness :
    (cState_submit quiet_world some_state [.str "example.test", .fixnum adns_r_a]).result =
      .ok ⟨some quiet_world.adq, Qnil⟩ ∧
    (a_answer.nrrs ≠ 0 →
      (cState_synchronous { quiet_world with answer_r := a_answer } some_state
          [.str "example.test", .fixnum adns_r_a]).result =
        (cQuery_wait { quiet_world with answer_r := a_answer }
          ⟨some quiet_world.adq, Qnil⟩).result) ∧
    (a_answer.nrrs = 0 →
      (cState_synchronous { quiet_world with answer_r := a_answer } some_state
          [.str "example.test", .fixnum adns_r_a]).result =
        .ok (.hash [("type", INT2FIX a_answer.type), ("owner", CSTR2STR a_answer.owner),
          ("status", INT2FIX a_answer.status), ("expires", INT2FIX a_answer.expires),
          ("answer", Qnil)]) ∧
      (cQuery_wait { quiet_world with answer_r := a_answer }
          ⟨some quiet_world.adq, Qnil⟩).result =
        .ok (.hash [("type", INT2FIX a_answer.type), ("owner", CSTR2STR a_answer.owner),
          ("status", INT2FIX a_answer.status), ("expires", INT2FIX a_answer.expires),
          ("answer", .ary [])])) :=
  C13_synchronous_eq_submit_wait { quiet_world with answer_r := a_answer } quiet_world
    { quiet_world with answer_r := a_answer } some_state a_answer "example.test" adns_r_a 0 _
    (Or.inl rfl) (by decide) (by decide) rfl rfl rfl rfl rfl rfl

/-- C14, at the failing inputs: `State.new()` and `State.new2("bogus")` when the
library initialisation returns the code 12 and leaves the state pointer NULL.
The return value of `adns_init` and of `adns_init_strcfg` is dropped, so
construction raises nothing and returns a State that wraps the NULL library
state; and so it is for every return code. -/
theorem C14_new_ignores_init_failure :
    failing_init.ecode ≠ 0 ∧
    (cState_new failing_init []).result = .ok { ads := 0, diagfile := none } ∧
    (cState_new failing_init []).events = [.adns_init adns_if_none none] ∧
    (cState_new2 failing_init [.str "bogus"]).result = .ok { ads := 0, diagfile := none } ∧
    (cState_new2 failing_init [.str "bogus"]).events =
      [.adns_init_strcfg adns_if_none none (some "bogus")] ∧
    (∀ e : Int, (cState_new { failing_init with ecode := e } []).result =
      .ok { ads := 0, diagfile := none }) ∧
    (∀ e : Int, (cState_new2 { failing_init with ecode := e } [.str "bogus"]).result =
      .ok { ads := 0, diagfile := none }) := by
  refine ⟨by decide, by decide, by decide, by decide, by decide, ?_, ?_⟩
  · intro e
    rfl
  · intro e
    rfl

/-- C16, at the failing input: the A answer with the one address 203.0.113.5,
handed to `check` in a call where the unassigned local `ecode` of
`parse_adns_answer` reads 0 and to `wait` in a call where it reads 1.  The two
hashes differ in `answer` (`["203.0.113.5"]` against `[""]`), where the claim
has the operations produce equal hashes for equal answers; a sweep in which
the local reads 1 caches the second hash. -/
theorem C16_hashes_differ_with_unassigned_ecode :
    (cQuery_check { quiet_world with answer_r := a_answer, parse_ecode := 0 }
        pending_query).result =
      .ok (.hash [("type", .fixnum 1), ("owner", .str "example.test"), ("status", .fixnum 0),
        ("expires", .fixnum 1700000000), ("answer", .ary [.str "203.0.113.5"])]) ∧
    (cQuery_wait { quiet_world with answer_r := a_answer, parse_ecode := 1 }
        pending_query).result =
      .ok (.hash [("type", .fixnum 1), ("owner", .str "example.test"), ("status", .fixnum 0),
        ("expires", .fixnum 1700000000), ("answer", .ary [.str ""])]) ∧
    (cQuery_check { quiet_world with answer_r := a_answer, parse_ecode := 0 }
        pending_query).result ≠
      (cQuery_wait { quiet_world with answer_r := a_answer, parse_ecode := 1 }
        pending_query).result ∧
    (cState_completed_queries
        { plain_sweep with outstanding := [⟨7, 0, 1, a_answer, 1⟩] } some_state two_pending
        []).map (fun r => r.queries 1) =
      some (.live ⟨none, .hash [("type", .fixnum 1), ("owner", .str "example.test"),
        ("status", .fixnum 0), ("expires", .fixnum 1700000000),
        ("answer", .ary [.str ""])]⟩) := by
  decide

/-- C18, at the failing input: the freshly submitted query behind object 1
(handle 7, answer nil) and the calls `cancel`, then `check`.  `cancel` frees
the record while the object keeps its pointer: after it the memory behind the
object holds no record, so there is no NULL handle that stays NULL, and the
`check` (as any later `wait`, `cancel`, or sweep that reaches the object) reads
freed memory and has no defined result.  A call on another object is not
affected. -/
theorem C18_cancel_leaves_freed_memory :
    two_pending 1 = QueryMem.live ⟨some 7, Qnil⟩ ∧
    (run_steps [.cancel 1] two_pending).map (fun heap => heap 1) = some QueryMem.freed ∧
    (run_steps [.cancel 1, .check 1 quiet_world] two_pending).isNone = true ∧
    (run_steps [.cancel 1, .wait 1 quiet_world] two_pending).isNone = true ∧
    (run_steps [.cancel 1, .cancel 1] two_pending).isNone = true ∧
    (run_steps [.cancel 1,
        .completed_queries { plain_sweep with outstanding := [⟨7, 0, 1, a_answer, 0⟩] }
          some_state []] two_pending).isNone = true ∧
    (run_steps [.cancel 1, .check 2 busy_world] two_pending).map (fun heap => heap 2) =
      some (QueryMem.live ⟨some 8, Qnil⟩) := by
  decide

/-- C19: `submit`, `submit_reverse`, `submit_reverse_any` and `synchronous` hand
the library the flags `adns_qf_owner | f` when the caller gives the flags `f`
(a fixnum in the range of a C `int`), and exactly `adns_qf_owner` when the flags
argument is omitted; the owner bit (bit 2, value 4) is therefore set in every
query, whatever `f` is.  The reverse lookups are taken at arguments with which
they reach the library: a PTR type for `submit_reverse`, and an address text
for which `inet_aton` returns neither -1 nor 0. -/
theorem C19_owner_flag_always_set (w : World) (st : rb_adns_state_t) (owner zone : String)
    (type rtype f : Int) (htype : fits_int type)
    (hrtype : rtype = adns_r_ptr ∨ rtype = adns_r_ptr_raw) (hf : fits_int f)
    (haton1 : (w.inet_aton (cstr owner)).1 ≠ -1) (haton0 : (w.inet_aton (cstr owner)).1 ≠ 0) :
    (cState_submit w st [.str owner, .fixnum type, .fixnum f]).events =
      [.adns_submit st.ads (cstr owner) type (Int.lor adns_qf_owner f)] ∧
    (cState_submit w st [.str owner, .fixnum type]).events =
      [.adns_submit st.ads (cstr owner) type adns_qf_owner] ∧
    (cState_submit_reverse w st [.str owner, .fixnum rtype, .fixnum f]).events =
      [.adns_submit_reverse st.ads (w.inet_aton (cstr owner)).2 rtype
        (Int.lor adns_qf_owner f)] ∧
    (cState_submit_reverse w st [.str owner, .fixnum rtype]).events =
      [.adns_submit_reverse st.ads (w.inet_aton (cstr owner)).2 rtype adns_qf_owner] ∧
    (cState_submit_reverse_any w st [.str owner, .str zone, .fixnum type, .fixnum f]).events =
      [.adns_submit_reverse_any st.ads (w.inet_aton (cstr owner)).2 (cstr zone) type
        (Int.lor adns_qf_owner f)] ∧
    (cState_submit_reverse_any w st [.str owner, .str zone, .fixnum type]).events =
      [.adns_submit_reverse_any st.ads (w.inet_aton (cstr owner)).2 (cstr zone) type
        adns_qf_owner] ∧
    (cState_synchronous w st [.str owner, .fixnum type, .fixnum f]).events.head? =
      some (.adns_synchronous st.ads (cstr owner) type (Int.lor adns_qf_owner f)) ∧
    (cState_synchronous w st [.str owner, .fixnum type]).events.head? =
      some (.adns_synchronous st.ads (cstr owner) type adns_qf_owner) ∧
    Int.testBit (Int.lor adns_qf_owner f) 2 = true ∧
    Int.testBit adns_qf_owner 2 = true := by
  have htype2 := fits_fixnum_of_fits_int type htype
  have hf2 := fits_fixnum_of_fits_int f hf
  have hrt : fits_int rtype := by
    rcases hrtype with h | h <;> subst h <;> decide
  have hrt2 := fits_fixnum_of_fits_int rtype hrt
  have hrt3 : rtype = ((adns_r_ptr : Nat) : Int) ∨ rtype = ((adns_r_ptr_raw : Nat) : Int) :=
    hrtype
  refine ⟨?_, ?_, ?_, ?_, ?_, ?_, ?_, ?_, ?_, ?_⟩
  · by_cases he : w.ecode = 0 <;>
      simp [cState_submit, CHECK_TYPE, STR2CSTR, FIX2INT, htype, hf, htype2, hf2, he,
        Qnil, bind, Except.bind, pure, Except.pure, Functor.map, Except.map]
  · by_cases he : w.ecode = 0 <;>
      simp [cState_submit, CHECK_TYPE, STR2CSTR, FIX2INT, htype, hf, htype2, hf2, he,
        Qnil, bind, Except.bind, pure, Except.pure, Functor.map, Except.map]
  · by_cases he : w.ecode = 0 <;>
      simp [cState_submit_reverse, CHECK_TYPE, STR2CSTR, FIX2INT, hrt, hf, hrt2, hf2, he,
        hrt3, haton1, Qnil, bind, Except.bind, pure, Except.pure, Functor.map, Except.map]
  · by_cases he : w.ecode = 0 <;>
      simp [cState_submit_reverse, CHECK_TYPE, STR2CSTR, FIX2INT, hrt, hf, hrt2, hf2, he,
        hrt3, haton1, Qnil, bind, Except.bind, pure, Except.pure, Functor.map, Except.map]
  · by_cases he : w.ecode = 0 <;>
      simp [cState_submit_reverse_any, CHECK_TYPE, STR2CSTR, FIX2INT, htype, hf, htype2, hf2,
        he, haton0, Qnil, bind, Except.bind, pure, Except.pure, Functor.map, Except.map]
  · by_cases he : w.ecode = 0 <;>
      simp [cState_submit_reverse_any, CHECK_TYPE, STR2CSTR, FIX2INT, htype, hf, htype2, hf2,
        he, haton0, Qnil, bind, Except.bind, pure, Except.pure, Functor.map, Except.map]
  · by_cases he : w.ecode = 0 <;> by_cases hn : w.answer_r.nrrs = 0 <;>
      simp [cState_synchronous, CHECK_TYPE, STR2CSTR, FIX2INT, htype, hf, htype2, hf2, he, hn,
        Qnil, bind, Except.bind, pure, Except.pure, Functor.map, Except.map]
  · by_cases he : w.ecode = 0 <;> by_cases hn : w.answer_r.nrrs = 0 <;>
      simp [cState_synchronous, CHECK_TYPE, STR2CSTR, FIX2INT, htype, hf, htype2, hf2, he, hn,
        Qnil, bind, Except.bind, pure, Except.pure, Functor.map, Except.map]
  · rw [Int.testBit_lor]
    have : Int.testBit adns_qf_owner 2 = true := by decide
    simp [this]
  · decide

/-- Witness of C19: each of the four methods with the flags `QF::NONE` or without
flags, in a world whose address parser accepts the text. -/
theorem C19_owner_flag_always_set_witness :
    (cState_submit accepting_world some_state
        [.str "example.test", .fixnum adns_r_a, .fixnum adns_qf_none]).events =
      [.adns_submit 1 "example.test" adns_r_a 4] ∧
    (cState_submit_reverse accepting_world some_state
        [.str "192.0.2.1", .fixnum adns_r_ptr, .fixnum adns_qf_none]).events =
      [.adns_submit_reverse 1 ⟨192, 0, 2, 1⟩ adns_r_ptr 4] ∧
    (cState_submit_reverse_any accepting_world some_state
        [.str "192.0.2.1", .str "in-addr.arpa", .fixnum adns_r_a]).events =
      [.adns_submit_reverse_any 1 ⟨192, 0, 2, 1⟩ "in-addr.arpa" adns_r_a 4] ∧
    (cState_synchronous accepting_world some_state
        [.str "192.0.2.1", .fixnum adns_r_a, .fixnum adns_qf_none]).events.head? =
      some (.adns_synchronous 1 "192.0.2.1" adns_r_a 4) :=
  have h := C19_owner_flag_always_set accepting_world some_state "192.0.2.1" "in-addr.arpa"
    adns_r_a adns_r_ptr adns_qf_none (by decide) (Or.inl rfl) (by decide) (by decide)
    (by decide)
  have g := C19_owner_flag_always_set accepting_world some_state "example.test" "in-addr.arpa"
    adns_r_a adns_r_ptr adns_qf_none (by decide) (Or.inl rfl) (by decide) (by decide)
    (by decide)
  ⟨g.1, h.2.2.1, h.2.2.2.2.2.1, h.2.2.2.2.2.2.1⟩

end ADNS
